import Mathlib

/-!
Verification of the chat orchestration core of the ze-finance backend
(backend/app/ai/gateway.py, backend/app/ai/tools.py, backend/app/crud.py,
backend/app/chat/schemas.py) against its natural-language specification.

Modelling conventions (shallow embedding):
* Python `str` is modelled as `List Char` (a sequence of unicode code points).
* Python `float`/`Decimal` amounts are modelled as `Rat`; the claims under
  verification only depend on order comparisons (`> 0`, `≥ 0.01`), which agree
  with IEEE semantics on the values used.
* `datetime` values are modelled as their ISO-8601 rendering (`List Char`);
  comparison of two ISO strings of the same shape is lexicographic, matching
  datetime order, and `date().isoformat()` / `strftime("%Y-%m")` are the first
  10 / 7 characters of the rendering.
* UUIDs are modelled as natural numbers rendered in decimal.
* JSON values (`json.loads` results / tool results) are modelled by `JVal`.
  The rendering of a number inside `json.dumps` is abstracted (no claim
  depends on the decimal rendering of a number).
-/

namespace ZeFinance

/-- Python strings are sequences of unicode code points. -/
abbrev Str := List Char

/-- Coerce a Lean string literal to the `Str` model. -/
def toL (s : String) : Str := s.data

/-- Decimal digits of a natural number (`str(n)` for a non-negative int). -/
def natChars (n : Nat) : Str := (Nat.repr n).data

/-- Python `str.lower()` (ASCII case folding; the string constants used by the
gateway heuristics are already lower-case, so this is faithful on them). -/
def pyLower (s : Str) : Str := s.map Char.toLower

/-- Python `str.strip()` on both ends (whitespace removal). -/
def pyStrip (s : Str) : Str :=
  ((s.dropWhile Char.isWhitespace).reverse.dropWhile Char.isWhitespace).reverse

/-- Python substring containment `needle in hay`. -/
def strContains : Str → Str → Bool
  | hay, needle =>
    if List.isPrefixOf needle hay then true
    else match hay with
      | [] => false
      | _ :: t => strContains t needle

/-- Lexicographic strict comparison of two code-point sequences; this is how
ISO-8601 timestamps of identical shape compare, matching datetime order. -/
def strLt : Str → Str → Bool
  | [], [] => false
  | [], _ :: _ => true
  | _ :: _, [] => false
  | a :: as, b :: bs => if a.val < b.val then true else if b.val < a.val then false else strLt as bs

/-- Lexicographic non-strict comparison (for SQL `>=` / `<=` on timestamps). -/
def strLe (a b : Str) : Bool := !(strLt b a)

/-- A modelled datetime: its ISO-8601 rendering. -/
abbrev DT := Str

/-- JSON values, as produced by `json.loads` and consumed by `json.dumps`. -/
inductive JVal where
  | null : JVal
  | bool : Bool → JVal
  | num : Rat → JVal
  | str : Str → JVal
  | arr : List JVal → JVal
  | obj : List (Str × JVal) → JVal

/-- Abstract rendering of a Python number (int or float) as text.  Integers
render as their decimal digits; the rendering of non-integers is a stand-in —
no claim depends on the decimal rendering of a non-integral number. -/
def ratChars (q : Rat) : Str :=
  let intPart : Str := if q.num < 0 then '-' :: natChars q.num.natAbs else natChars q.num.natAbs
  if q.den = 1 then intPart else intPart ++ ('/' :: natChars q.den)

/-- JSON escaping of one character (as `json.dumps` with ensure_ascii=False). -/
def escChar (c : Char) : Str :=
  if c = '"' then ['\\', '"']
  else if c = '\\' then ['\\', '\\']
  else if c = '\n' then ['\\', 'n']
  else if c = '\t' then ['\\', 't']
  else if c = '\r' then ['\\', 'r']
  else if c.val < 32 then ['\\', 'u', '0', '0', (Nat.digitChar (c.val.toNat / 16)), (Nat.digitChar (c.val.toNat % 16))]
  else [c]

/-- JSON escaping of a string body. -/
def escStr (s : Str) : Str := s.flatMap escChar

/-- Join serialized items with the compact item separator `,`. -/
def joinComma (xs : List Str) : Str := List.intercalate [','] xs

mutual

/-- The model of `json.dumps(v, ensure_ascii=False, separators=(',', ':'))`. -/
def dumps : JVal → Str
  | .null => toL "null"
  | .bool true => toL "true"
  | .bool false => toL "false"
  | .num q => ratChars q
  | .str s => '"' :: (escStr s ++ ['"'])
  | .arr xs => '[' :: (joinComma (dumpsArr xs) ++ [']'])
  | .obj kvs => '\x7b' :: (joinComma (dumpsObj kvs) ++ ['\x7d'])

/-- Serialize the elements of a JSON array. -/
def dumpsArr : List JVal → List Str
  | [] => []
  | x :: xs => dumps x :: dumpsArr xs

/-- Serialize the entries of a JSON object. -/
def dumpsObj : List (Str × JVal) → List Str
  | [] => []
  | kv :: kvs => ('"' :: (escStr kv.1 ++ ['"', ':'] ++ dumps kv.2)) :: dumpsObj kvs

end

/-- Python `str(v)` on a primitive JSON value (gateway.py line 171). -/
def pyStrOf : JVal → Str
  | .null => toL "None"
  | .bool true => toL "True"
  | .bool false => toL "False"
  | .num q => ratChars q
  | .str s => s
  | .arr xs => dumps (.arr xs)
  | .obj kvs => dumps (.obj kvs)

/-- The list-truncation marker `f"... ({n} more items)"` (gateway.py 156/166). -/
def moreItemsMarker (n : Nat) : JVal :=
  .str (toL "... (" ++ natChars n ++ toL " more items)")

/-- Per-value compaction applied to dict values and to a top-level list
(gateway.py 154-168): arrays longer than 10 keep the first 10 plus a marker;
strings longer than 500 are cut at 500 with an ellipsis; others unchanged. -/
def compactVal : JVal → JVal
  | .arr v => if v.length > 10 then .arr (v.take 10 ++ [moreItemsMarker (v.length - 10)]) else .arr v
  | .str s => if s.length > 500 then .str (s.take 500 ++ toL "...") else .str s
  | v => v

/-- Compaction of every value of a mapping-valued tool result. -/
def compactObjEntries (kvs : List (Str × JVal)) : List (Str × JVal) :=
  kvs.map (fun kv => (kv.1, compactVal kv.2))

/-- The final character cap (gateway.py 176-177): if the serialized result is
longer than the configured budget, cut at the budget and append the 15
character marker. -/
def capChars (maxChars : Nat) (s : Str) : Str :=
  if s.length > maxChars then s.take maxChars ++ toL "... (truncated)" else s

/-- The model of `compact_tool_result` (gateway.py 132-179), parameterized by
the configured `AI_TOOL_RESULTS_MAX_CHARS` budget. -/
def compactToolResult (maxChars : Nat) (result : JVal) : Str :=
  let resultStr : Str :=
    match result with
    | .obj kvs => dumps (.obj (compactObjEntries kvs))
    | .arr xs => dumps (compactVal (.arr xs))
    | v =>
      let s := pyStrOf v
      if s.length > 500 then s.take 500 ++ toL "..." else s
  capChars maxChars resultStr

/-! ## Data layer (app/models.py, app/crud.py)

Transactions are rows scoped to a user; UUID primary keys are modelled as
naturals rendered in decimal, and the fresh id taken at insertion is tracked
by a `nextId` counter in the database state. -/

/-- The transaction_type enum of the Transaction model. -/
inductive TxType where
  | income : TxType
  | expense : TxType
deriving DecidableEq

/-- The string stored in the `type` column. -/
def ttStr : TxType → Str
  | .income => toL "INCOME"
  | .expense => toL "EXPENSE"

/-- A row of the transactions table (app/models.py).  `occurredAt` and
`createdAt` are optional because the tool layer (app/ai/tools.py) defensively
handles absent timestamps. -/
structure Tx where
  id : Nat
  user : Nat
  amount : Rat
  type : TxType
  category : Str
  description : Option Str
  occurredAt : Option DT
  createdAt : Option DT
deriving DecidableEq

/-- The persisted state visible to the tool layer. -/
structure DB where
  txs : List Tx
  nextId : Nat
deriving DecidableEq

/-- Lookup in a JSON object (`d.get(k)` / `k in d`). -/
def jGet (v : JVal) (k : Str) : Option JVal :=
  match v with
  | .obj kvs => (kvs.find? (fun kv => kv.1 == k)).map (·.2)
  | _ => none

/-- Python truthiness of a JSON value. -/
def jTruthy : JVal → Bool
  | .null => false
  | .bool b => b
  | .num q => decide (q ≠ 0)
  | .str s => !s.isEmpty
  | .arr xs => !xs.isEmpty
  | .obj kvs => !kvs.isEmpty

/-- get_user_transaction (app/crud.py 283-304): fetch by id AND owner. -/
def getUserTransaction (db : DB) (tid uid : Nat) : Option Tx :=
  db.txs.find? (fun tx => tx.id == tid && tx.user == uid)

/-- Validated payload of TransactionCreate / CreateTransactionInput (the two
schemas carry the same fields; the tool layer converts float to Decimal,
which is the identity in the `Rat` model). -/
structure CreateTransactionInput where
  amount : Rat
  type : TxType
  category : Str
  description : Option Str
  occurredAt : Option DT

/-- Validated payload of TransactionUpdate / UpdateTransactionInput without
the transaction id (partial update; `some` marks a provided field). -/
structure TxUpdateFields where
  amount : Option Rat
  type : Option TxType
  category : Option Str
  description : Option Str
  occurredAt : Option DT

/-- create_user_transaction (app/crud.py 215-255): re-check positivity, fill
occurred_at with the current time when absent, insert with a fresh id. -/
def createUserTransaction (now : DT) (db : DB) (txIn : CreateTransactionInput) (uid : Nat) :
    Except Str (Tx × DB) :=
  if txIn.amount ≤ 0 then .error (toL "Amount must be positive")
  else
    let occ : DT := match txIn.occurredAt with | some d => d | none => now
    let tx : Tx :=
      { id := db.nextId, user := uid, amount := txIn.amount, type := txIn.type,
        category := txIn.category, description := txIn.description,
        occurredAt := some occ, createdAt := some now }
    .ok (tx, { txs := db.txs ++ [tx], nextId := db.nextId + 1 })

/-- Application of the provided (non-None) fields to a row (crud.py 347-350). -/
def applyTxUpdate (u : TxUpdateFields) (tx : Tx) : Tx :=
  { tx with
    amount := u.amount.getD tx.amount
    type := u.type.getD tx.type
    category := u.category.getD tx.category
    description := match u.description with | some d => some d | none => tx.description
    occurredAt := match u.occurredAt with | some d => some d | none => tx.occurredAt }

/-- update_user_transaction (app/crud.py 307-354): `none` result encodes the
not-found / not-owned case; a non-positive provided amount is rejected. -/
def updateUserTransaction (db : DB) (tid uid : Nat) (u : TxUpdateFields) :
    Except Str (Option (Tx × DB)) :=
  match getUserTransaction db tid uid with
  | none => .ok none
  | some tx =>
    if u.amount.isNone && u.type.isNone && u.category.isNone &&
        u.description.isNone && u.occurredAt.isNone then
      .ok (some (tx, db))
    else if (match u.amount with | some a => decide (a ≤ 0) | none => false) then
      .error (toL "Amount must be positive")
    else
      .ok (some (applyTxUpdate u tx,
        { txs := db.txs.map (fun t => if t.id == tid && t.user == uid then applyTxUpdate u t else t),
          nextId := db.nextId }))

/-- delete_user_transaction (app/crud.py 357-385): delete where id AND owner
match; reports whether a row was removed. -/
def deleteUserTransaction (db : DB) (tid uid : Nat) : Bool × DB :=
  (decide ((db.txs.filter (fun t => !(t.id == tid && t.user == uid))).length < db.txs.length),
   { txs := db.txs.filter (fun t => !(t.id == tid && t.user == uid)), nextId := db.nextId })

/-- Transactions of one user (dashboard query, crud.py 404-407). -/
def userTxs (db : DB) (uid : Nat) : List Tx := db.txs.filter (fun t => t.user == uid)

/-- Sum of the amounts of a list of rows. -/
def sumAmounts (l : List Tx) : Rat := (l.map (fun t => t.amount)).sum

/-- Total income of a user (crud.py 414-417). -/
def totalIncome (db : DB) (uid : Nat) : Rat :=
  sumAmounts ((userTxs db uid).filter (fun t => t.type == TxType.income))

/-- Total expense of a user; any non-INCOME row counts as expense, mirroring
the if/else in crud.py 416-419. -/
def totalExpense (db : DB) (uid : Nat) : Rat :=
  sumAmounts ((userTxs db uid).filter (fun t => !(t.type == TxType.income)))

/-! ## Tool implementations (app/ai/tools.py) -/

/-- Optional text rendered into a tool-result payload. -/
def optStrJ : Option Str → JVal
  | some s => .str s
  | none => .null

/-- The serialized transaction returned by create/update (tools.py 303-311,
431-439). -/
def txJson (tx : Tx) : JVal :=
  .obj [(toL "id", .str (natChars tx.id)), (toL "amount", .num tx.amount),
        (toL "type", .str (ttStr tx.type)), (toL "category", .str tx.category),
        (toL "description", optStrJ tx.description),
        (toL "occurred_at", optStrJ tx.occurredAt),
        (toL "created_at", optStrJ tx.createdAt)]

/-- The serialized transaction returned by list_transactions (tools.py
261-271, no created_at field). -/
def txJsonShort (tx : Tx) : JVal :=
  .obj [(toL "id", .str (natChars tx.id)), (toL "amount", .num tx.amount),
        (toL "type", .str (ttStr tx.type)), (toL "category", .str tx.category),
        (toL "description", optStrJ tx.description),
        (toL "occurred_at", optStrJ tx.occurredAt)]

/-- tool_get_balance (tools.py 208-228). -/
def toolGetBalance (db : DB) (uid : Nat) : JVal :=
  .obj [(toL "total_balance", .num (totalIncome db uid - totalExpense db uid)),
        (toL "total_income", .num (totalIncome db uid)),
        (toL "total_expense", .num (totalExpense db uid)),
        (toL "currency", .str (toL "BRL"))]

/-- Validated payload of ListTransactionsInput (chat/schemas.py 70-74). -/
structure ListTransactionsInput where
  limit : Nat
  fromDate : Option DT
  toDate : Option DT

/-- SQL date-range filter (`occurred_at >= from AND occurred_at <= to`); a
NULL timestamp fails any comparison, per SQL three-valued logic. -/
def occInRange (f t : Option DT) (occ : Option DT) : Bool :=
  (match f, occ with
   | none, _ => true
   | some _, none => false
   | some fd, some o => strLe fd o) &&
  (match t, occ with
   | none, _ => true
   | some _, none => false
   | some td, some o => strLe o td)

/-- Sort key used for ORDER BY occurred_at DESC (NULL sorts last/least). -/
def occKey : Option DT → Str
  | some d => d
  | none => []

/-- tool_list_transactions (tools.py 231-273): filter by owner and optional
range, order by occurred_at descending, cut at the limit. -/
def toolListTransactions (db : DB) (uid : Nat) (f : ListTransactionsInput) : JVal :=
  let rows := db.txs.filter (fun t => t.user == uid && occInRange f.fromDate f.toDate t.occurredAt)
  let sorted := List.insertionSort
    (fun a b => strLe (occKey b.occurredAt) (occKey a.occurredAt) = true) rows
  let limited := sorted.take f.limit
  .obj [(toL "transactions", .arr (limited.map txJsonShort)),
        (toL "count", .num limited.length)]

/-- Formatting of a batch of field validation errors (tools.py 530-537). -/
def invalidArgsMsg (name : Str) (errs : List (Str × Str)) : Str :=
  toL "Invalid arguments for " ++ name ++ toL ": " ++
    List.intercalate (toL "; ") (errs.map (fun fe => fe.1 ++ toL ": " ++ fe.2))

/-- The pydantic max_length message (schemas.py 36-37, 53-54). -/
def maxLenMsg : Str := toL "String should have at most 255 characters"

/-- The length-constraint errors raised by constructing TransactionCreate
(schemas.py 31-46) from an already chat-validated input: category and
description carry max_length=255; amount gt=0 and the type pattern were
already enforced by CreateTransactionInput, so only the lengths can fail
here.  Errors are collected in field declaration order. -/
def createFieldErrs (i : CreateTransactionInput) : List (Str × Str) :=
  (if i.category.length > 255 then [(toL "category", maxLenMsg)] else []) ++
  (match i.description with
   | some d => if d.length > 255 then [(toL "description", maxLenMsg)] else []
   | none => [])

/-- tool_create_transaction (tools.py 276-311): the TransactionCreate
construction at tools.py 293-299 re-validates the fields, and its
ValidationError is converted by execute_tool (tools.py 529-537) into the
Invalid-arguments message. -/
def toolCreateTransaction (now : DT) (db : DB) (uid : Nat) (i : CreateTransactionInput) :
    Except Str (JVal × DB) :=
  match createFieldErrs i with
  | [] =>
    (match createUserTransaction now db i uid with
     | .error m => .error m
     | .ok (tx, db') => .ok (txJson tx, db'))
  | es => .error (invalidArgsMsg (toL "create_transaction") es)

/-- The analyze_spending grouping dimension (closed enumeration). -/
inductive GroupBy where
  | category : GroupBy
  | day : GroupBy
  | month : GroupBy
deriving DecidableEq

/-- Rendering of the grouping dimension in the result payload. -/
def groupByStr : GroupBy → Str
  | .category => toL "category"
  | .day => toL "day"
  | .month => toL "month"

/-- Validated payload of AnalyzeSpendingInput (chat/schemas.py 86-91). -/
structure AnalyzeSpendingInput where
  fromDate : Option DT
  toDate : Option DT
  groupBy : GroupBy
  topN : Option Nat

/-- The grouping key of one row (tools.py 350-360): category text, the first
10 ISO characters (the date) for day, the first 7 (year-month) for month, and
the literal "unknown" bucket when the timestamp is absent. -/
def groupKey (g : GroupBy) (tx : Tx) : Str :=
  match g with
  | .category => tx.category
  | .day => match tx.occurredAt with | some d => d.take 10 | none => toL "unknown"
  | .month => match tx.occurredAt with | some d => d.take 7 | none => toL "unknown"

/-- Insertion-ordered dict accumulation `grouped[key] = grouped.get(key, 0) + amount`. -/
def addGroup (acc : List (Str × Rat)) (k : Str) (a : Rat) : List (Str × Rat) :=
  match acc with
  | [] => [(k, a)]
  | (k0, v) :: rest => if k0 = k then (k0, v + a) :: rest else (k0, v) :: addGroup rest k a

/-- The EXPENSE rows of the owner inside the optional range (tools.py 331-342). -/
def analyzeFilter (db : DB) (uid : Nat) (inp : AnalyzeSpendingInput) : List Tx :=
  db.txs.filter (fun tx =>
    tx.user == uid && tx.type == TxType.expense && occInRange inp.fromDate inp.toDate tx.occurredAt)

/-- The grouped totals in dict insertion order (tools.py 345-362). -/
def analyzeGrouped (db : DB) (uid : Nat) (inp : AnalyzeSpendingInput) : List (Str × Rat) :=
  (analyzeFilter db uid inp).foldl (fun acc tx => addGroup acc (groupKey inp.groupBy tx) tx.amount) []

/-- Python sorted(..., key=total, reverse=True) is a stable descending sort;
insertionSort with the reversed order is extensionally the same sort. -/
def analyzeSorted (db : DB) (uid : Nat) (inp : AnalyzeSpendingInput) : List (Str × Rat) :=
  List.insertionSort (fun a b : Str × Rat => b.2 ≤ a.2) (analyzeGrouped db uid inp)

/-- The sorted group list after the optional top-N truncation (tools.py
371-372; Python truthiness makes top_n = 0 a no-op, unreachable past
validation). -/
def analyzeResults (db : DB) (uid : Nat) (inp : AnalyzeSpendingInput) : List (Str × Rat) :=
  match inp.topN with
  | some n => if n = 0 then analyzeSorted db uid inp else (analyzeSorted db uid inp).take n
  | none => analyzeSorted db uid inp

/-- tool_analyze_spending (tools.py 314-378): the reported total sums all
groups, not only the truncated ones. -/
def toolAnalyzeSpending (db : DB) (uid : Nat) (inp : AnalyzeSpendingInput) : JVal :=
  .obj [(toL "group_by", .str (groupByStr inp.groupBy)),
        (toL "results", .arr ((analyzeResults db uid inp).map (fun kv =>
          .obj [(toL "group", .str kv.1), (toL "total", .num kv.2)]))),
        (toL "total", .num (((analyzeGrouped db uid inp).map (fun kv => kv.2)).sum))]

/-- Validated payload of UpdateTransactionInput (chat/schemas.py 94-101). -/
structure UpdateTransactionInput where
  transactionId : Nat
  fields : TxUpdateFields

/-- The not-found/not-owned error text (tools.py 429 and 465): one signal for
both a missing id and a foreign-owned id. -/
def notFoundMsg (tid : Nat) : Str :=
  toL "Transaction " ++ natChars tid ++ toL " not found or not owned by user"

/-- The validation errors raised by constructing TransactionUpdate
(schemas.py 48-70) from the provided fields: category carries
max_length=255 and a strip/non-empty validator (the length constraint runs
first), description carries max_length=255; amount gt=0 and the type
pattern were already enforced by UpdateTransactionInput.  Errors are
collected in field declaration order. -/
def updateFieldErrs (u : TxUpdateFields) : List (Str × Str) :=
  (match u.category with
   | some c =>
     if c.length > 255 then [(toL "category", maxLenMsg)]
     else if (pyStrip c).isEmpty then
       [(toL "category", toL "Value error, category must be non-empty if provided")]
     else []
   | none => []) ++
  (match u.description with
   | some d => if d.length > 255 then [(toL "description", maxLenMsg)] else []
   | none => [])

/-- The field record after the TransactionUpdate category validator stripped
the provided category (schemas.py 63-70). -/
def stripFields (u : TxUpdateFields) : TxUpdateFields :=
  { u with category := u.category.map pyStrip }

/-- tool_update_transaction (tools.py 381-439).  The at-least-one-field check
precedes everything; the TransactionUpdate construction at tools.py 424
enforces max_length=255 on category and description, rejects blank
categories and strips the provided one, its ValidationError converted by
execute_tool (tools.py 529-537); the ownership lookup then yields the
shared not-found signal. -/
def toolUpdateTransaction (db : DB) (uid : Nat) (i : UpdateTransactionInput) :
    Except Str (JVal × DB) :=
  if i.fields.amount.isNone && i.fields.type.isNone && i.fields.category.isNone &&
      i.fields.description.isNone && i.fields.occurredAt.isNone then
    .error (toL "At least one field must be provided for update (amount, type, category, description, or occurred_at)")
  else
    match updateFieldErrs i.fields with
    | [] =>
      (match updateUserTransaction db i.transactionId uid (stripFields i.fields) with
       | .error m => .error m
       | .ok none => .error (notFoundMsg i.transactionId)
       | .ok (some (tx, db')) => .ok (txJson tx, db'))
    | es => .error (invalidArgsMsg (toL "update_transaction") es)

/-- Validated payload of DeleteTransactionInput (chat/schemas.py 104-106). -/
structure DeleteTransactionInput where
  transactionId : Nat

/-- tool_delete_transaction (tools.py 442-477). -/
def toolDeleteTransaction (db : DB) (uid : Nat) (i : DeleteTransactionInput) :
    Except Str (JVal × DB) :=
  match getUserTransaction db i.transactionId uid with
  | none => .error (notFoundMsg i.transactionId)
  | some tx =>
    if !(deleteUserTransaction db i.transactionId uid).1 then
      .error (toL "Transaction " ++ natChars i.transactionId ++ toL " could not be deleted")
    else
      .ok (.obj [(toL "deleted", .bool true),
                 (toL "id", .str (natChars i.transactionId)),
                 (toL "amount", .num tx.amount),
                 (toL "category", .str tx.category)],
           (deleteUserTransaction db i.transactionId uid).2)

/-! ## Argument validation (pydantic schemas of chat/schemas.py)

Raw tool arguments are the JSON object produced by json.loads; extra keys
not declared by a schema are ignored (pydantic default).  The error texts
approximate the pydantic v2 messages; no claim depends on their wording. -/

/-- Raw tool arguments: a JSON object as key/value pairs with unique keys. -/
abbrev ArgDict := List (Str × JVal)

/-- Dictionary lookup in a raw argument payload. -/
def getv (args : ArgDict) (k : Str) : Option JVal :=
  (args.find? (fun kv => kv.1 == k)).map (·.2)

/-- Required float constrained gt=0. -/
def vReqNumGt0 (args : ArgDict) (k : Str) : Except (Str × Str) Rat :=
  match getv args k with
  | none => .error (k, toL "Field required")
  | some (.num q) => if q > 0 then .ok q else .error (k, toL "Input should be greater than 0")
  | some _ => .error (k, toL "Input should be a valid number")

/-- Optional float constrained gt=0 (default None). -/
def vOptNumGt0 (args : ArgDict) (k : Str) : Except (Str × Str) (Option Rat) :=
  match getv args k with
  | none => .ok none
  | some .null => .ok none
  | some (.num q) => if q > 0 then .ok (some q) else .error (k, toL "Input should be greater than 0")
  | some _ => .error (k, toL "Input should be a valid number")

/-- Required Literal INCOME / EXPENSE. -/
def vReqTxType (args : ArgDict) (k : Str) : Except (Str × Str) TxType :=
  match getv args k with
  | none => .error (k, toL "Field required")
  | some (.str s) =>
    if s = toL "INCOME" then .ok .income
    else if s = toL "EXPENSE" then .ok .expense
    else .error (k, toL "Input should be INCOME or EXPENSE")
  | some _ => .error (k, toL "Input should be INCOME or EXPENSE")

/-- Optional Literal INCOME / EXPENSE (default None). -/
def vOptTxType (args : ArgDict) (k : Str) : Except (Str × Str) (Option TxType) :=
  match getv args k with
  | none => .ok none
  | some .null => .ok none
  | some (.str s) =>
    if s = toL "INCOME" then .ok (some .income)
    else if s = toL "EXPENSE" then .ok (some .expense)
    else .error (k, toL "Input should be INCOME or EXPENSE")
  | some _ => .error (k, toL "Input should be INCOME or EXPENSE")

/-- Required string field. -/
def vReqStr (args : ArgDict) (k : Str) : Except (Str × Str) Str :=
  match getv args k with
  | none => .error (k, toL "Field required")
  | some (.str s) => .ok s
  | some _ => .error (k, toL "Input should be a valid string")

/-- Optional string field (default None). -/
def vOptStr (args : ArgDict) (k : Str) : Except (Str × Str) (Option Str) :=
  match getv args k with
  | none => .ok none
  | some .null => .ok none
  | some (.str s) => .ok (some s)
  | some _ => .error (k, toL "Input should be a valid string")

/-- Optional datetime (accepted as its ISO rendering, default None). -/
def vOptDT (args : ArgDict) (k : Str) : Except (Str × Str) (Option DT) :=
  match getv args k with
  | none => .ok none
  | some .null => .ok none
  | some (.str s) => .ok (some s)
  | some _ => .error (k, toL "Input should be a valid datetime")

/-- Decimal digits of a UUID stand-in. -/
def parseNatChars (s : Str) : Option Nat :=
  if s.isEmpty then none
  else if s.all Char.isDigit then
    some (s.foldl (fun acc c => acc * 10 + (c.val.toNat - 48)) 0)
  else none

/-- Required UUID field. -/
def vReqUuid (args : ArgDict) (k : Str) : Except (Str × Str) Nat :=
  match getv args k with
  | none => .error (k, toL "Field required")
  | some (.str s) =>
    (match parseNatChars s with
     | some n => .ok n
     | none => .error (k, toL "Input should be a valid UUID"))
  | some _ => .error (k, toL "Input should be a valid UUID")

/-- Optional bounded integer field (ge=lo, le=hi) with a default. -/
def vIntRange (args : ArgDict) (k : Str) (lo hi : Int) (dflt : Option Nat) :
    Except (Str × Str) (Option Nat) :=
  match getv args k with
  | none => .ok dflt
  | some (.num q) =>
    if q.den = 1 then
      if q.num < lo then .error (k, toL "Input should be greater than or equal to " ++ natChars lo.toNat)
      else if q.num > hi then .error (k, toL "Input should be less than or equal to " ++ natChars hi.toNat)
      else .ok (some q.num.toNat)
    else .error (k, toL "Input should be a valid integer")
  | some _ => .error (k, toL "Input should be a valid integer")

/-- Optional nullable bounded integer field (Optional[int], ge/le). -/
def vOptIntRange (args : ArgDict) (k : Str) (lo hi : Int) : Except (Str × Str) (Option Nat) :=
  match getv args k with
  | some .null => .ok none
  | _ => vIntRange args k lo hi none

/-- The validation errors contributed by one field. -/
def errsOf {α : Type} (e : Except (Str × Str) α) : List (Str × Str) :=
  match e with
  | .error x => [x]
  | .ok _ => []

/-- group_by: Literal with default "category". -/
def vGroupBy (args : ArgDict) : Except (Str × Str) GroupBy :=
  match getv args (toL "group_by") with
  | none => .ok .category
  | some (.str s) =>
    if s = toL "category" then .ok .category
    else if s = toL "day" then .ok .day
    else if s = toL "month" then .ok .month
    else .error (toL "group_by", toL "Input should be category, day or month")
  | some _ => .error (toL "group_by", toL "Input should be category, day or month")

/-- ListTransactionsInput validation: limit defaults to 50 in [1,200]. -/
def parseListTx (args : ArgDict) : Except (List (Str × Str)) ListTransactionsInput :=
  let el := vIntRange args (toL "limit") 1 200 (some 50)
  let ef := vOptDT args (toL "from_date")
  let et := vOptDT args (toL "to_date")
  match el, ef, et with
  | .ok (some l), .ok f, .ok t => .ok { limit := l, fromDate := f, toDate := t }
  | .ok none, .ok f, .ok t => .ok { limit := 50, fromDate := f, toDate := t }
  | _, _, _ => .error (errsOf el ++ errsOf ef ++ errsOf et)

/-- CreateTransactionInput validation (amount gt=0 strictly). -/
def parseCreateTx (args : ArgDict) : Except (List (Str × Str)) CreateTransactionInput :=
  let ea := vReqNumGt0 args (toL "amount")
  let et := vReqTxType args (toL "type")
  let ec := vReqStr args (toL "category")
  let ed := vOptStr args (toL "description")
  let eo := vOptDT args (toL "occurred_at")
  match ea, et, ec, ed, eo with
  | .ok a, .ok t, .ok c, .ok d, .ok o =>
    .ok { amount := a, type := t, category := c, description := d, occurredAt := o }
  | _, _, _, _, _ => .error (errsOf ea ++ errsOf et ++ errsOf ec ++ errsOf ed ++ errsOf eo)

/-- AnalyzeSpendingInput validation (top_n optional in [1,50]). -/
def parseAnalyze (args : ArgDict) : Except (List (Str × Str)) AnalyzeSpendingInput :=
  let ef := vOptDT args (toL "from_date")
  let et := vOptDT args (toL "to_date")
  let eg := vGroupBy args
  let en := vOptIntRange args (toL "top_n") 1 50
  match ef, et, eg, en with
  | .ok f, .ok t, .ok g, .ok n => .ok { fromDate := f, toDate := t, groupBy := g, topN := n }
  | _, _, _, _ => .error (errsOf ef ++ errsOf et ++ errsOf eg ++ errsOf en)

/-- UpdateTransactionInput validation (transaction_id required). -/
def parseUpdateTx (args : ArgDict) : Except (List (Str × Str)) UpdateTransactionInput :=
  let ei := vReqUuid args (toL "transaction_id")
  let ea := vOptNumGt0 args (toL "amount")
  let et := vOptTxType args (toL "type")
  let ec := vOptStr args (toL "category")
  let ed := vOptStr args (toL "description")
  let eo := vOptDT args (toL "occurred_at")
  match ei, ea, et, ec, ed, eo with
  | .ok i, .ok a, .ok t, .ok c, .ok d, .ok o =>
    .ok { transactionId := i,
          fields := { amount := a, type := t, category := c, description := d, occurredAt := o } }
  | _, _, _, _, _, _ =>
    .error (errsOf ei ++ errsOf ea ++ errsOf et ++ errsOf ec ++ errsOf ed ++ errsOf eo)

/-- DeleteTransactionInput validation. -/
def parseDeleteTx (args : ArgDict) : Except (List (Str × Str)) DeleteTransactionInput :=
  match vReqUuid args (toL "transaction_id") with
  | .ok i => .ok { transactionId := i }
  | .error e => .error [e]

/-- The minimum advertised for the amount parameter in the declared TOOLS
schema (tools.py 83-87 and 159-162): 0.01 for create and update. -/
def toolSchemaAmountMin (name : Str) : Option Rat :=
  if name = toL "create_transaction" then some (mkRat 1 100)
  else if name = toL "update_transaction" then some (mkRat 1 100)
  else none

/-- execute_tool (tools.py 481-537): validate the raw arguments against the
schema of the named tool, then dispatch scoped to the caller-supplied
user_id; validation failures and domain failures surface as error values and
leave the database untouched. -/
def executeTool (now : DT) (db : DB) (uid : Nat) (name : Str) (args : ArgDict) :
    Except Str JVal × DB :=
  if name = toL "get_balance" then (.ok (toolGetBalance db uid), db)
  else if name = toL "list_transactions" then
    match parseListTx args with
    | .error es => (.error (invalidArgsMsg name es), db)
    | .ok f => (.ok (toolListTransactions db uid f), db)
  else if name = toL "create_transaction" then
    match parseCreateTx args with
    | .error es => (.error (invalidArgsMsg name es), db)
    | .ok i =>
      match toolCreateTransaction now db uid i with
      | .error m => (.error m, db)
      | .ok (r, db') => (.ok r, db')
  else if name = toL "analyze_spending" then
    match parseAnalyze args with
    | .error es => (.error (invalidArgsMsg name es), db)
    | .ok i => (.ok (toolAnalyzeSpending db uid i), db)
  else if name = toL "update_transaction" then
    match parseUpdateTx args with
    | .error es => (.error (invalidArgsMsg name es), db)
    | .ok i =>
      match toolUpdateTransaction db uid i with
      | .error m => (.error m, db)
      | .ok (r, db') => (.ok r, db')
  else if name = toL "delete_transaction" then
    match parseDeleteTx args with
    | .error es => (.error (invalidArgsMsg name es), db)
    | .ok i =>
      match toolDeleteTransaction db uid i with
      | .error m => (.error m, db)
      | .ok (r, db') => (.ok r, db')
  else (.error (toL "Unknown tool: " ++ name), db)

/-! ## Gateway data shapes (app/ai/gateway.py, app/chat/schemas.py) -/

/-- A model-issued tool-call request.  `arguments` models the raw argument
text: `.ok d` stands for a payload that json.loads parses into the object
`d`; `.error m` stands for a payload whose parsing (or unpacking) raises
with message `m` — caught per-call inside the loop. -/
structure ToolCall where
  id : Str
  name : Str
  arguments : Except Str ArgDict

/-- One entry of the in-memory conversation sequence. -/
structure Message where
  role : Str
  content : Str
  toolCalls : List ToolCall

/-- The normalized provider response `{role, content, tool_calls[], error?}`. -/
structure LLMResponse where
  content : Str
  toolCalls : List ToolCall
  errTag : Option Str

/-- Information about an exception raised by a provider call; `genaiTyped`
marks the google-genai error classes special-cased at gateway.py 900-916. -/
structure ExcInfo where
  genaiTyped : Bool
  msg : Str

/-- The provider environment: one (possibly failing) response per call, as a
function of the call index within the request, the message sequence, and
whether tool definitions were attached. -/
abbrev Oracle := Nat → List Message → Bool → Except ExcInfo LLMResponse

/-- A UI event of the assistant metadata side channel (chat/schemas.py 36-43). -/
structure UiEvent where
  type : Str
  variant : Str
  accent : Str
  title : Str
  subtitle : Str
  data : JVal

/-- ChatAssistantMeta (chat/schemas.py 46-55). -/
structure Meta where
  uiEvents : List UiEvent
  didCreate : Bool
  createdId : Option Nat
  didUpdate : Bool
  updatedId : Option Nat
  didDelete : Bool
  deletedId : Option Nat
  insightTags : List Str

/-- A fresh ChatAssistantMeta(). -/
def emptyMeta : Meta :=
  { uiEvents := [], didCreate := false, createdId := none, didUpdate := false,
    updatedId := none, didDelete := false, deletedId := none, insightTags := [] }

/-- A ToolResult of the loop (tool_call_id, name, result payload). -/
structure ToolResult where
  toolCallId : Str
  name : Str
  result : JVal

/-- The final reply shape returned by process_chat_message. -/
structure Response where
  role : Str
  content : Str
  toolCalls : List ToolCall
  needsApiKey : Bool
  errTag : Option Str
  meta : Meta

/-! ## Tool-attachment heuristics (gateway.py 57-129) -/

/-- The fixed action keyword set of heuristic mode (gateway.py 79-93). -/
def actionKeywords : List Str :=
  [toL "criar", toL "registrar", toL "adicionar", toL "create", toL "add", toL "register",
   toL "alterar", toL "altera", toL "mudar", toL "muda", toL "editar", toL "edita",
   toL "atualizar", toL "atualiza",
   toL "update", toL "edit", toL "change", toL "modify", toL "modificar",
   toL "deletar", toL "deleta", toL "remover", toL "remove", toL "excluir", toL "exclui",
   toL "apagar", toL "apaga",
   toL "delete", toL "remove", toL "exclude",
   toL "saldo", toL "gasto", toL "gastei", toL "receita", toL "despesa", toL "extrato",
   toL "quanto", toL "balance", toL "transaction", toL "spending",
   toL "transação", toL "transacao",
   toL "listar", toL "list", toL "mostrar", toL "show", toL "ver", toL "ver todas"]

/-- The clarification markers looked for in the previous assistant turn
(gateway.py 124-128). -/
def clarificationMarkers : List Str :=
  [toL "categoria", toL "descrição", toL "descricao", toL "qual foi", toL "com o quê",
   toL "com o que", toL "foi despesa", toL "foi receita", toL "entrada ou saída",
   toL "entrada ou saida", toL "quando foi", toL "qual data", toL "data dessa",
   toL "pode confirmar"]

/-- should_attach_tools (gateway.py 57-105), parameterized by the configured
AI_TOOLS_MODE string. -/
def shouldAttachTools (mode : Str) (userMessage : Str) (includeContextPack : Bool) : Bool :=
  if mode = toL "always" then true
  else if mode = toL "never" then false
  else if mode = toL "heuristic" then
    let lowerText := pyLower userMessage
    if includeContextPack && actionKeywords.any (fun kw => strContains lowerText kw) then true
    else actionKeywords.any (fun kw => strContains lowerText kw)
  else includeContextPack

/-- should_force_tools_from_context (gateway.py 108-129): the most recent
assistant message containing a clarification marker forces tools. -/
def shouldForceToolsFromContext (recents : List Message) : Bool :=
  match recents.reverse.find? (fun m => m.role == toL "assistant") with
  | none => false
  | some m => clarificationMarkers.any (fun mk => strContains (pyLower m.content) mk)

/-- The combined attachment decision as made in process_chat_message
(gateway.py 862-866): the force override fires whenever the base decision
declined, in every mode. -/
def attachToolsDecision (mode : Str) (userMessage : Str) (includePack : Bool)
    (recents : List Message) : Bool :=
  let a := shouldAttachTools mode userMessage includePack
  if !a && shouldForceToolsFromContext recents then true else a

/-! ## Credentials (gateway.py 192-245) -/

/-- An ephemeral per-owner credential: key text and expiry instant. -/
structure EphEntry where
  key : Str
  expiresAt : DT

/-- Deployment configuration: provider selection, tools mode, the tool-result
character budget, and the provider environment keys. -/
structure Cfg where
  provider : Str
  toolsMode : Str
  maxToolResultChars : Nat
  envOpenai : Option Str
  envAnthropic : Option Str
  envGemini : Option Str

/-- The environment key consulted for the configured provider
(gateway.py 207-218). -/
def envKeyFor (cfg : Cfg) : Option Str :=
  if cfg.provider = toL "openai" then cfg.envOpenai
  else if cfg.provider = toL "anthropic" then cfg.envAnthropic
  else if cfg.provider = toL "gemini" then cfg.envGemini
  else none

/-- Per-request context: the current instant, the ephemeral credential store,
random.choice (modelled as an injected chooser), and the context-pack text
builder (its content is irrelevant to every claim and protected by
try/except in the source). -/
structure Ctx where
  now : DT
  eph : List (Nat × EphEntry)
  pick : List Str → Str
  packText : DB → Nat → Str

/-- get_api_key (gateway.py 196-230): stripped environment key of the
configured provider first, then the unexpired ephemeral key of the owner
(stripped; expired entries are evicted and yield nothing). -/
def getApiKey (cfg : Cfg) (eph : List (Nat × EphEntry)) (now : DT) (uid : Nat) : Option Str :=
  if !(match envKeyFor cfg with | some k => pyStrip k | none => []).isEmpty then
    some (match envKeyFor cfg with | some k => pyStrip k | none => [])
  else
    match eph.find? (fun e => e.1 == uid) with
    | some entry => if strLt now entry.2.expiresAt then some (pyStrip entry.2.key) else none
    | none => none

/-! ## The tool loop (gateway.py 919-1098) -/

/-- The per-call error payload built when a tool call fails
(gateway.py 1029-1036). -/
def toolErrorPayload (m : Str) : JVal :=
  .obj [(toL "error", .str (toL "Failed to execute tool")),
        (toL "message", .str m)]

/-- The error test applied to a tool result:
isinstance(result, dict) and result.get("error") (gateway.py 1051, 1105). -/
def isErrResult (r : JVal) : Bool :=
  match r with
  | .obj _ =>
    (match jGet r (toL "error") with
     | some v => jTruthy v
     | none => false)
  | _ => false

/-- The apostrophe code point (kept out of string literals). -/
def apos : Char := Char.ofNat 39

/-- The message of the UnboundLocalError raised at gateway.py 1026 when the
except handler prints tool_args before any call of the request has bound
it. -/
def unboundLocalMsg : Str :=
  toL "UnboundLocalError: cannot access local variable " ++ [apos] ++ toL "tool_args" ++
  [apos] ++ toL " where it is not associated with a value"

/-- The outcome of one tool call once tool_args is already bound by an
earlier successful parse in the same request: an argument-text parsing
failure and an executor failure are both caught by the handler at
gateway.py 1023-1037 and surface as error values. -/
def handleBoundCall (now : DT) (uid : Nat) (db : DB) (c : ToolCall) : Except Str JVal × DB :=
  match c.arguments with
  | .error m => (.error m, db)
  | .ok args => executeTool now db uid c.name args

/-- The ToolResult recorded for one call: success payload, or {error,
message} (gateway.py 941-945 and 1029-1036). -/
def mkToolResult (c : ToolCall) (r : Except Str JVal) : ToolResult :=
  match r with
  | .ok v => { toolCallId := c.id, name := c.name, result := v }
  | .error m => { toolCallId := c.id, name := c.name, result := toolErrorPayload m }

/-- The fixed confirmation title rotation (gateway.py 19-28). -/
def confirmationTitles : List Str :=
  [toL "Tá na mão.", toL "Fechado.", toL "Pronto.", toL "Registrado.",
   toL "Anotado.", toL "Feito.", toL "Concluído.", toL "Salvo."]

/-- The expense confirmation subtitles (gateway.py 30-35). -/
def confirmationSubtitlesExpense : List Str :=
  [toL "Despesa registrada pra você não perder o controle.",
   toL "Gasto anotado com sucesso.",
   toL "Despesa salva no seu histórico.",
   toL "Registrei essa despesa pra você."]

/-- The income confirmation subtitles (gateway.py 37-42). -/
def confirmationSubtitlesIncome : List Str :=
  [toL "Receita registrada pra você acompanhar.",
   toL "Entrada anotada com sucesso.",
   toL "Receita salva no seu histórico.",
   toL "Registrei essa receita pra você."]

/-- result.get(k) with Python None for a missing key. -/
def jGetD (r : JVal) (k : Str) : JVal := (jGet r k).getD JVal.null

/-- UUID(result["id"]) as a try/except parse of the id text. -/
def uuidOfResult (r : JVal) : Option Nat :=
  match jGet r (toL "id") with
  | some (.str s) => parseNatChars s
  | _ => none

/-- The data payload of a create/update success card (gateway.py 962-971). -/
def txCardData (res : JVal) : JVal :=
  .obj [(toL "transaction",
    .obj [(toL "id", jGetD res (toL "id")), (toL "amount", jGetD res (toL "amount")),
          (toL "type", jGetD res (toL "type")), (toL "category", jGetD res (toL "category")),
          (toL "description", jGetD res (toL "description")),
          (toL "occurred_at", jGetD res (toL "occurred_at"))])]

/-- Metadata tracking of one executed call (gateway.py 947-1022): only a
successful create/update/delete with the expected marker key mutates the
metadata and appends one UI event. -/
def trackMeta (ctx : Ctx) (meta : Meta) (c : ToolCall) (r : Except Str JVal) : Meta :=
  match r with
  | .error _ => meta
  | .ok res =>
    if c.name = toL "create_transaction" && (jGet res (toL "id")).isSome then
      let isIncome : Bool := match jGet res (toL "type") with
        | some (.str s) => decide (s = toL "INCOME")
        | _ => false
      { meta with
        didCreate := true
        createdId := match uuidOfResult res with | some n => some n | none => meta.createdId
        uiEvents := meta.uiEvents ++
          [{ type := toL "success_card", variant := toL "neon", accent := toL "electric_lime",
             title := ctx.pick confirmationTitles,
             subtitle := ctx.pick (if isIncome then confirmationSubtitlesIncome
                                   else confirmationSubtitlesExpense),
             data := txCardData res }] }
    else if c.name = toL "update_transaction" && (jGet res (toL "id")).isSome then
      { meta with
        didUpdate := true
        updatedId := match uuidOfResult res with | some n => some n | none => meta.updatedId
        uiEvents := meta.uiEvents ++
          [{ type := toL "success_card", variant := toL "neon", accent := toL "electric_lime",
             title := toL "Atualizado.", subtitle := toL "Transação atualizada.",
             data := txCardData res }] }
    else if c.name = toL "delete_transaction" && (jGet res (toL "deleted")).isSome then
      { meta with
        didDelete := true
        deletedId := match uuidOfResult res with | some n => some n | none => meta.deletedId
        uiEvents := meta.uiEvents ++
          [{ type := toL "info_card", variant := toL "neon", accent := toL "deep_indigo",
             title := toL "Removido.", subtitle := toL "Transação excluída.",
             data := .obj [(toL "deleted_transaction_id", jGetD res (toL "id")),
                           (toL "amount", jGetD res (toL "amount")),
                           (toL "category", jGetD res (toL "category"))] }] }
    else meta

/-- The outcome of one batch of tool calls.  `bound` records whether
tool_args has been assigned (gateway.py 935) by this batch or an earlier
one; `crash` carries the uncaught UnboundLocalError of gateway.py 1026 when
a parse failure hits before any assignment. -/
structure BatchOut where
  results : List ToolResult
  db : DB
  meta : Meta
  bound : Bool
  crash : Option Str

/-- One batch of tool calls executed in provider order (gateway.py 932-1037),
given whether tool_args was already bound by an earlier call of the same
request.  A call whose argument text json.loads rejects does not assign
tool_args (the assignment at line 935 raises first); the except handler at
line 1026 then prints tool_args, so if no earlier call of the request bound
it, UnboundLocalError propagates and the remaining calls never run.  Every
other failure is caught and converted into one ToolResult. -/
def runBatch (ctx : Ctx) (uid : Nat) : DB → Meta → Bool → List ToolCall → BatchOut
  | db, meta, bound, [] =>
    { results := [], db := db, meta := meta, bound := bound, crash := none }
  | db, meta, bound, c :: cs =>
    match c.arguments with
    | .error m =>
      if bound then
        { results := mkToolResult c (.error m) ::
            (runBatch ctx uid db meta true cs).results
          db := (runBatch ctx uid db meta true cs).db
          meta := (runBatch ctx uid db meta true cs).meta
          bound := (runBatch ctx uid db meta true cs).bound
          crash := (runBatch ctx uid db meta true cs).crash }
      else
        { results := [], db := db, meta := meta, bound := false,
          crash := some unboundLocalMsg }
    | .ok args =>
      { results := mkToolResult c (executeTool ctx.now db uid c.name args).1 ::
          (runBatch ctx uid (executeTool ctx.now db uid c.name args).2
            (trackMeta ctx meta c (executeTool ctx.now db uid c.name args).1) true cs).results
        db := (runBatch ctx uid (executeTool ctx.now db uid c.name args).2
            (trackMeta ctx meta c (executeTool ctx.now db uid c.name args).1) true cs).db
        meta := (runBatch ctx uid (executeTool ctx.now db uid c.name args).2
            (trackMeta ctx meta c (executeTool ctx.now db uid c.name args).1) true cs).meta
        bound := (runBatch ctx uid (executeTool ctx.now db uid c.name args).2
            (trackMeta ctx meta c (executeTool ctx.now db uid c.name args).1) true cs).bound
        crash := (runBatch ctx uid (executeTool ctx.now db uid c.name args).2
            (trackMeta ctx meta c (executeTool ctx.now db uid c.name args).1) true cs).crash }

/-- error_msg extraction:
result.get("message", result.get("error", "Erro desconhecido")). -/
def errMsgOf (r : JVal) : Str :=
  pyStrOf (match jGet r (toL "message") with
    | some v => v
    | none =>
      match jGet r (toL "error") with
      | some v => v
      | none => .str (toL "Erro desconhecido"))

/-- The per-result text folded back to the model (gateway.py 1048-1060):
error hint or compacted success text. -/
def toolResultText (cfg : Cfg) (tr : ToolResult) : Str :=
  if isErrResult tr.result then
    toL "ERRO na função " ++ tr.name ++ toL ": " ++ errMsgOf tr.result ++ toL "\n" ++
    toL "Se o erro mencionar " ++ [apos] ++ toL "not found" ++ [apos] ++ toL " ou " ++
    [apos] ++ toL "não encontrada" ++ [apos] ++
    toL ", você deve primeiro usar list_transactions para encontrar a transação correta antes de tentar atualizar ou deletar novamente."
  else
    toL "Função " ++ tr.name ++ toL " executada com sucesso. Resultado:\n" ++
    compactToolResult cfg.maxToolResultChars tr.result

/-- The synthetic user message carrying this batch of results
(gateway.py 1062-1082). -/
def toolResultsUserMsg (cfg : Cfg) (texts : List Str) : Message :=
  let combined0 := List.intercalate (toL "\n\n") texts
  let combined :=
    if combined0.length > cfg.maxToolResultChars then
      combined0.take cfg.maxToolResultChars ++ toL "... (truncated)"
    else combined0
  let hasErrors := texts.any (fun t => strContains t (toL "ERRO"))
  let instruction :=
    if hasErrors then
      toL "Analise os resultados acima. Se houver ERROS, você deve:\n1. Se o erro mencionar que a transação não foi encontrada, use list_transactions primeiro para encontrar a transação correta.\n2. Use os IDs das transações encontradas para tentar novamente a operação solicitada.\n3. Se não conseguir encontrar a transação, informe o usuário de forma clara e sugira listar todas as transações.\n4. Responda ao usuário de forma útil mesmo se houver erros."
    else
      toL "Analise esses resultados e responda à pergunta do usuário de forma clara e útil."
  { role := toL "user",
    content := toL "Aqui estão os resultados das funções executadas:\n\n" ++ combined ++
      toL "\n\n" ++ instruction,
    toolCalls := [] }

/-- The assistant message echoing the processed tool calls
(gateway.py 1041-1046). -/
def assistantEcho (r : LLMResponse) : Message :=
  { role := toL "assistant", content := r.content, toolCalls := r.toolCalls }

/-- The provider-dependent iteration cap (gateway.py 923): 2 for gemini,
1 for every other provider. -/
def maxToolIterations (cfg : Cfg) : Nat :=
  if cfg.provider = toL "gemini" then 2 else 1

/-- Loop-carried state: database, message sequence, metadata, accumulated
tool results, the tool_args binding flag (function-scoped, so it persists
across iterations), iteration count, call index, and follow-up call count. -/
structure LoopSt where
  db : DB
  msgs : List Message
  meta : Meta
  acc : List ToolResult
  bound : Bool
  iters : Nat
  callIdx : Nat
  llmCalls : Nat

/-- The loop outcome; `early` marks the immediate return taken when a
follow-up response carries an error tag (gateway.py 1091-1093); `crash`
carries the UnboundLocalError of gateway.py 1026, which aborts the loop and
propagates out of process_chat_message. -/
structure LoopOut where
  early : Bool
  resp : LLMResponse
  st : LoopSt
  crash : Option Str

/-- One iteration body of the while loop (gateway.py 929-1086) on the
non-crashing path: run the batch, append the assistant echo and the
synthetic results message, and bump the iteration / call counters.  (The
batch is a pure function, so its repeated mention denotes one execution.) -/
def toolLoopStep (cfg : Cfg) (ctx : Ctx) (uid : Nat) (cur : LLMResponse) (s : LoopSt) : LoopSt :=
  { db := (runBatch ctx uid s.db s.meta s.bound cur.toolCalls).db
    msgs :=
      if ((runBatch ctx uid s.db s.meta s.bound cur.toolCalls).results.map (toolResultText cfg)).isEmpty
      then s.msgs ++ [assistantEcho cur]
      else (s.msgs ++ [assistantEcho cur]) ++
        [toolResultsUserMsg cfg
          ((runBatch ctx uid s.db s.meta s.bound cur.toolCalls).results.map (toolResultText cfg))]
    meta := (runBatch ctx uid s.db s.meta s.bound cur.toolCalls).meta
    acc := s.acc ++ (runBatch ctx uid s.db s.meta s.bound cur.toolCalls).results
    bound := (runBatch ctx uid s.db s.meta s.bound cur.toolCalls).bound
    iters := s.iters + 1
    callIdx := s.callIdx + 1
    llmCalls := s.llmCalls + 1 }

/-- The state left behind when the batch raises UnboundLocalError midway:
the earlier calls of the batch have already committed their database and
metadata effects, the iteration counter was bumped at gateway.py 929 before
the batch ran, but nothing after the for loop executes — no result
accumulation, no message appends, no follow-up call. -/
def toolLoopCrashSt (ctx : Ctx) (uid : Nat) (cur : LLMResponse) (s : LoopSt) : LoopSt :=
  { db := (runBatch ctx uid s.db s.meta s.bound cur.toolCalls).db
    msgs := s.msgs
    meta := (runBatch ctx uid s.db s.meta s.bound cur.toolCalls).meta
    acc := s.acc
    bound := (runBatch ctx uid s.db s.meta s.bound cur.toolCalls).bound
    iters := s.iters + 1
    callIdx := s.callIdx
    llmCalls := s.llmCalls }

/-- The while loop of gateway.py 928-1098, with the remaining iteration
budget as fuel.  A batch-time UnboundLocalError aborts the loop; a
follow-up call exception breaks out, finalizing the last fully obtained
response; a follow-up error tag returns immediately. -/
def toolLoop (cfg : Cfg) (oracle : Oracle) (ctx : Ctx) (uid : Nat) :
    Nat → LLMResponse → LoopSt → LoopOut
  | 0, cur, s => { early := false, resp := cur, st := s, crash := none }
  | fuel + 1, cur, s =>
    if cur.toolCalls.isEmpty then { early := false, resp := cur, st := s, crash := none }
    else
      match (runBatch ctx uid s.db s.meta s.bound cur.toolCalls).crash with
      | some m =>
        { early := false, resp := cur, st := toolLoopCrashSt ctx uid cur s, crash := some m }
      | none =>
        match oracle s.callIdx (toolLoopStep cfg ctx uid cur s).msgs true with
        | .error _ =>
          { early := false, resp := cur, st := toolLoopStep cfg ctx uid cur s, crash := none }
        | .ok r =>
          if r.errTag.isSome then
            { early := true, resp := r, st := toolLoopStep cfg ctx uid cur s, crash := none }
          else toolLoop cfg oracle ctx uid fuel r (toolLoopStep cfg ctx uid cur s)

/-- The successfully executed results of the turn (gateway.py 1105). -/
def successfulResults (acc : List ToolResult) : List ToolResult :=
  acc.filter (fun tr => !(isErrResult tr.result))

/-- The fixed confirmation sentence keyed by which mutating tool ran
(gateway.py 1110-1121): update, then delete, then create, then generic. -/
def synthContent (names : List Str) : Str :=
  if names.contains (toL "update_transaction") then toL "Transação atualizada com sucesso!"
  else if names.contains (toL "delete_transaction") then toL "Transação excluída com sucesso!"
  else if names.contains (toL "create_transaction") then toL "Transação registrada com sucesso!"
  else toL "Operação realizada com sucesso!"

/-- FINALIZE (gateway.py 1100-1125): keep non-empty content verbatim;
synthesize a confirmation when content is empty and some tool succeeded. -/
def finalizeResp (r : LLMResponse) (acc : List ToolResult) (meta : Meta) : Response :=
  let content :=
    if r.content.isEmpty && !acc.isEmpty then
      (let succ := successfulResults acc
       if !succ.isEmpty then synthContent (succ.map (fun tr => tr.name)) else r.content)
    else r.content
  { role := toL "assistant", content := content, toolCalls := r.toolCalls,
    needsApiKey := false, errTag := r.errTag, meta := meta }

/-- The credential-request reply text (gateway.py 811-817). -/
def needsCredContent : Str :=
  toL "Olá! Sou o Zefa, seu assistente financeiro. Para que eu possa ajudá-lo, preciso de uma chave de API do provedor de IA. Por favor, configure a variável de ambiente OPENAI_API_KEY, ANTHROPIC_API_KEY ou GEMINI_API_KEY no arquivo .env do backend, ou forneça a chave temporariamente via chat. A chave fornecida via chat será armazenada apenas em memória e expirará em 60 minutos."

/-- The credential-request reply (gateway.py 806-821): a normal reply with
needs_api_key set, no tool calls, fresh metadata. -/
def needsCredResponse : Response :=
  { role := toL "assistant", content := needsCredContent, toolCalls := [],
    needsApiKey := true, errTag := none, meta := emptyMeta }

/-- The reply built when a typed gemini exception is degraded
(gateway.py 903-914). -/
def apiErrorResponse : Response :=
  { role := toL "assistant",
    content := toL "Desculpe, ocorreu um erro ao processar sua mensagem. Por favor, tente novamente em alguns instantes.",
    toolCalls := [], needsApiKey := false, errTag := some (toL "api_error"), meta := emptyMeta }

/-- The system prompt; its literal wording is excluded from the specified
scope (spec section 1), so it is carried as an opaque marker. -/
def SYSTEM_PROMPT : Str := toL "SYSTEM_PROMPT"

/-- A provider response converted to the outward reply shape with the given
metadata attached. -/
def respOf (r : LLMResponse) (meta : Meta) : Response :=
  { role := toL "assistant", content := r.content, toolCalls := r.toolCalls,
    needsApiKey := false, errTag := r.errTag, meta := meta }

/-- The outcome of one process_chat_message run, instrumented with the number
of provider invocations and tool-loop iterations. -/
structure ProcOut where
  result : Except ExcInfo Response
  llmCalls : Nat
  iters : Nat

/-- The assembled message sequence (gateway.py 823-860): system prompt,
optional summary, optional context pack, prior turns, current user turn. -/
def builtMessages (ctx : Ctx) (db : DB) (uid : Nat) (userMessage : Str)
    (recents : List Message) (summary : Option Str) (includePack : Bool) : List Message :=
  [{ role := toL "system", content := SYSTEM_PROMPT, toolCalls := [] }] ++
  (match summary with
   | some s => [{ role := toL "system",
                  content := toL "Resumo da conversa anterior: " ++ s, toolCalls := [] }]
   | none => []) ++
  (if includePack then
    [{ role := toL "system",
       content := toL "FINANCE_CONTEXT_PACK (server, scoped to user): " ++ ctx.packText db uid,
       toolCalls := [] }]
   else []) ++
  recents ++ [{ role := toL "user", content := userMessage, toolCalls := [] }]

/-- The loop state at entry (iteration 0, one provider call already made,
tool_args not yet bound). -/
def initLoopSt (db : DB) (msgs : List Message) : LoopSt :=
  { db := db, msgs := msgs, meta := emptyMeta, acc := [], bound := false,
    iters := 0, callIdx := 1, llmCalls := 0 }

/-- process_chat_message (gateway.py 769-1130): credential check, message
assembly, attachment decision, first provider call, bounded tool loop,
finalize.  A loop-time UnboundLocalError is not caught anywhere in the
function, so it propagates to the caller (result is the exceptional
outcome).  (toolLoop is a pure function, so its repeated mention denotes
one execution.) -/
def processChatMessage (cfg : Cfg) (oracle : Oracle) (ctx : Ctx) (db : DB) (uid : Nat)
    (userMessage : Str) (recents : List Message) (summary : Option Str)
    (includePack : Bool) : ProcOut :=
  if (match getApiKey cfg ctx.eph ctx.now uid with
      | none => true
      | some k => k.isEmpty) = true then
    { result := .ok needsCredResponse, llmCalls := 0, iters := 0 }
  else
    match oracle 0 (builtMessages ctx db uid userMessage recents summary includePack)
        (attachToolsDecision cfg.toolsMode userMessage includePack recents) with
    | .error e =>
      if cfg.provider = toL "gemini" && e.genaiTyped then
        { result := .ok apiErrorResponse, llmCalls := 1, iters := 0 }
      else { result := .error e, llmCalls := 1, iters := 0 }
    | .ok r0 =>
      if r0.errTag.isSome then { result := .ok (respOf r0 emptyMeta), llmCalls := 1, iters := 0 }
      else
        if (toolLoop cfg oracle ctx uid (maxToolIterations cfg) r0
            (initLoopSt db (builtMessages ctx db uid userMessage recents summary includePack))).crash.isSome
        then
          { result := .error
              { genaiTyped := false,
                msg := (toolLoop cfg oracle ctx uid (maxToolIterations cfg) r0
                  (initLoopSt db (builtMessages ctx db uid userMessage recents summary
                    includePack))).crash.getD [] },
            llmCalls := 1 + (toolLoop cfg oracle ctx uid (maxToolIterations cfg) r0
              (initLoopSt db (builtMessages ctx db uid userMessage recents summary includePack))).st.llmCalls,
            iters := (toolLoop cfg oracle ctx uid (maxToolIterations cfg) r0
              (initLoopSt db (builtMessages ctx db uid userMessage recents summary includePack))).st.iters }
        else if (toolLoop cfg oracle ctx uid (maxToolIterations cfg) r0
            (initLoopSt db (builtMessages ctx db uid userMessage recents summary includePack))).early
        then
          { result := .ok (respOf
              (toolLoop cfg oracle ctx uid (maxToolIterations cfg) r0
                (initLoopSt db (builtMessages ctx db uid userMessage recents summary includePack))).resp
              (toolLoop cfg oracle ctx uid (maxToolIterations cfg) r0
                (initLoopSt db (builtMessages ctx db uid userMessage recents summary includePack))).st.meta),
            llmCalls := 1 + (toolLoop cfg oracle ctx uid (maxToolIterations cfg) r0
              (initLoopSt db (builtMessages ctx db uid userMessage recents summary includePack))).st.llmCalls,
            iters := (toolLoop cfg oracle ctx uid (maxToolIterations cfg) r0
              (initLoopSt db (builtMessages ctx db uid userMessage recents summary includePack))).st.iters }
        else
          { result := .ok (finalizeResp
              (toolLoop cfg oracle ctx uid (maxToolIterations cfg) r0
                (initLoopSt db (builtMessages ctx db uid userMessage recents summary includePack))).resp
              (toolLoop cfg oracle ctx uid (maxToolIterations cfg) r0
                (initLoopSt db (builtMessages ctx db uid userMessage recents summary includePack))).st.acc
              (toolLoop cfg oracle ctx uid (maxToolIterations cfg) r0
                (initLoopSt db (builtMessages ctx db uid userMessage recents summary includePack))).st.meta),
            llmCalls := 1 + (toolLoop cfg oracle ctx uid (maxToolIterations cfg) r0
              (initLoopSt db (builtMessages ctx db uid userMessage recents summary includePack))).st.llmCalls,
            iters := (toolLoop cfg oracle ctx uid (maxToolIterations cfg) r0
              (initLoopSt db (builtMessages ctx db uid userMessage recents summary includePack))).st.iters }

/-! ## Specification-side definitions used by refinement claims -/

/-- Modelled from the spec (amended wording of C9): the per-mode base
decision — always: attach; never: decline; heuristic: keyword match;
unknown mode: the context-pack flag — with the clarification force-attach
override applied whenever the base decision declined, in every mode. -/
def attachToolsSpec (mode : Str) (userMessage : Str) (includePack : Bool)
    (recents : List Message) : Bool :=
  let force := shouldForceToolsFromContext recents
  let kw := actionKeywords.any (fun kwd => strContains (pyLower userMessage) kwd)
  if mode = toL "always" then true
  else if mode = toL "never" then force
  else if mode = toL "heuristic" then kw || force
  else includePack || force

/-- The row built by create_user_transaction from a validated input (used to
state the create success path explicitly). -/
def mkCreatedTx (now : DT) (db : DB) (uid : Nat) (i : CreateTransactionInput) : Tx :=
  { id := db.nextId, user := uid, amount := i.amount, type := i.type, category := i.category,
    description := i.description,
    occurredAt := some (match i.occurredAt with | some d => d | none => now),
    createdAt := some now }

/-! ## Concrete fixtures used by witnesses -/

/-- An expense with a timestamp (Food, 200). -/
def wTxFood : Tx :=
  { id := 10, user := 1, amount := 200, type := .expense, category := toL "Food",
    description := none, occurredAt := some (toL "2024-05-02T10:00:00"),
    createdAt := some (toL "2024-05-02T10:00:00") }

/-- An expense without a timestamp (Transport, 150). -/
def wTxTransport : Tx :=
  { id := 11, user := 1, amount := 150, type := .expense, category := toL "Transport",
    description := none, occurredAt := none, createdAt := none }

/-- An income row (Salary, 1000). -/
def wTxSalary : Tx :=
  { id := 12, user := 1, amount := 1000, type := .income, category := toL "Salary",
    description := none, occurredAt := some (toL "2024-05-03T09:00:00"),
    createdAt := some (toL "2024-05-03T09:00:00") }

/-- A database holding the three rows above. -/
def wDb : DB := { txs := [wTxFood, wTxTransport, wTxSalary], nextId := 13 }

/-- An analyze input grouping by day with top_n = 1. -/
def wAnInp : AnalyzeSpendingInput :=
  { fromDate := none, toDate := none, groupBy := .day, topN := some 1 }

/-- A fixed current instant. -/
def wNow : DT := toL "2024-05-01T00:00:00"

/-- A well-formed create_transaction argument payload. -/
def wCreateArgs : ArgDict :=
  [(toL "amount", .num 5), (toL "type", .str (toL "EXPENSE")),
   (toL "category", .str (toL "Food"))]

/-- An empty store (id 5 does not exist). -/
def wDbEmpty : DB := { txs := [], nextId := 0 }

/-- A store where id 5 exists but belongs to user 2, not user 1. -/
def wDbForeign : DB :=
  { txs := [{ id := 5, user := 2, amount := 30, type := .expense, category := toL "Food",
              description := none, occurredAt := none, createdAt := none }], nextId := 6 }

/-- An argument payload naming transaction 5 with a new amount. -/
def wTidArgs : ArgDict := [(toL "transaction_id", .str (toL "5")), (toL "amount", .num 7)]

/-- The validated update input carried by wTidArgs. -/
def wUpdInp : UpdateTransactionInput :=
  { transactionId := 5,
    fields := { amount := some 7, type := none, category := none, description := none,
                occurredAt := none } }

/-- The validated delete input carried by wTidArgs. -/
def wDelInp : DeleteTransactionInput := { transactionId := 5 }

/-- The validated input carried by wCreateArgs. -/
def wCreateInp : CreateTransactionInput :=
  { amount := 5, type := .expense, category := toL "Food", description := none,
    occurredAt := none }

/-- A provider whose first call requests one create_transaction and whose
follow-up calls return empty content with no tool calls. -/
def wOracleCreate : Oracle := fun i _ _ =>
  if i = 0 then
    .ok { content := [],
          toolCalls := [{ id := toL "c1", name := toL "create_transaction",
                          arguments := .ok wCreateArgs }],
          errTag := none }
  else .ok { content := [], toolCalls := [], errTag := none }

/-- A tool call naming an unknown tool — execution fails. -/
def wFailCall : ToolCall := { id := toL "f1", name := toL "bogus_tool", arguments := .ok [] }

/-- A well-formed get_balance call — execution succeeds. -/
def wOkCall : ToolCall := { id := toL "s1", name := toL "get_balance", arguments := .ok [] }

/-- A batch holding one failing call followed by one succeeding call. -/
def wBatchCalls : List ToolCall := [wFailCall, wOkCall]

/-- A provider response carrying that batch. -/
def wResp : LLMResponse := { content := [], toolCalls := wBatchCalls, errTag := none }

/-- A deployment whose environment key is blank after stripping. -/
def wCfgBlank : Cfg :=
  { provider := toL "openai", toolsMode := toL "heuristic", maxToolResultChars := 4000,
    envOpenai := some (toL "   "), envAnthropic := none, envGemini := none }

/-- A request context whose only ephemeral key for user 1 has expired. -/
def wCtxExpired : Ctx :=
  { now := wNow,
    eph := [(1, { key := toL "old-key", expiresAt := toL "2024-01-01T00:00:00" })],
    pick := fun l => l.headD [], packText := fun _ _ => [] }

/-- A request context with no ephemeral credentials. -/
def wCtx : Ctx :=
  { now := wNow, eph := [], pick := fun l => l.headD [], packText := fun _ _ => [] }

/-- A deployment configured for openai with an environment key. -/
def wCfgOpenai : Cfg :=
  { provider := toL "openai", toolsMode := toL "heuristic", maxToolResultChars := 4000,
    envOpenai := some (toL "sk-test"), envAnthropic := none, envGemini := none }

/-- A deployment configured for gemini with an environment key. -/
def wCfgGemini : Cfg :=
  { provider := toL "gemini", toolsMode := toL "heuristic", maxToolResultChars := 4000,
    envOpenai := none, envAnthropic := none, envGemini := some (toL "g-key") }

/-- A provider that answers every call with one get_balance tool call. -/
def wOracleTools : Oracle := fun _ _ _ =>
  .ok { content := [],
        toolCalls := [{ id := toL "c", name := toL "get_balance", arguments := .ok [] }],
        errTag := none }

/-- A tool call whose argument text json.loads rejects. -/
def wBadArgsCall : ToolCall :=
  { id := toL "b1", name := toL "create_transaction",
    arguments := .error (toL "Expecting value: line 1 column 1 (char 0)") }

/-- A provider that answers every call with that single unparseable-argument
tool call: it returns at least one tool_call on every response and never
raises. -/
def wOracleBadArgs : Oracle := fun _ _ _ =>
  .ok { content := [], toolCalls := [wBadArgsCall], errTag := none }

/-! ## Theorems -/

/-- The character cap leaves at most the budget plus the 15-character
truncation marker. -/
theorem capChars_length_le (m : Nat) (s : Str) : (capChars m s).length ≤ m + 15 := by
  unfold capChars
  split
  · have h15 : (toL "... (truncated)").length = 15 := rfl
    rw [List.length_append, List.length_take, h15]
    omega
  · omega

/-- C3 (amended): the compacted text never exceeds the configured character
budget plus the 15-character truncation marker appended after the cut (the
code cuts at the budget and then appends the marker, so the budget itself can
be exceeded by exactly 15 characters); and a 50-item list value of a
mapping-valued result compacts to exactly 11 logical entries — the first 10
plus one more-items marker. -/
theorem compactToolResult_budget_and_entries :
    (∀ (m : Nat) (v : JVal), (compactToolResult m v).length ≤ m + 15) ∧
    (∀ xs : List JVal, xs.length = 50 →
      compactVal (.arr xs) = .arr (xs.take 10 ++ [moreItemsMarker 40]) ∧
      (xs.take 10 ++ [moreItemsMarker 40]).length = 11) ∧
    (∀ (kvs : List (Str × JVal)) (k : Str) (xs : List JVal), (k, JVal.arr xs) ∈ kvs →
      xs.length = 50 →
      (k, JVal.arr (xs.take 10 ++ [moreItemsMarker 40])) ∈ compactObjEntries kvs) := by
  refine ⟨fun m v => ?_, fun xs h => ?_, fun kvs k xs hmem h => ?_⟩
  · unfold compactToolResult
    exact capChars_length_le m _
  · have h10 : xs.length > 10 := by omega
    constructor
    · have hc : compactVal (.arr xs) =
          if xs.length > 10 then JVal.arr (xs.take 10 ++ [moreItemsMarker (xs.length - 10)])
          else JVal.arr xs := rfl
      rw [hc, if_pos h10, h]
    · rw [List.length_append, List.length_take, h]
      rfl
  · have hval : compactVal (.arr xs) = .arr (xs.take 10 ++ [moreItemsMarker 40]) := by
      have h10 : xs.length > 10 := by omega
      have hc : compactVal (.arr xs) =
          if xs.length > 10 then JVal.arr (xs.take 10 ++ [moreItemsMarker (xs.length - 10)])
          else JVal.arr xs := rfl
      rw [hc, if_pos h10, h]
    unfold compactObjEntries
    exact List.mem_map.mpr ⟨(k, .arr xs), hmem, by rw [hval]⟩

/-- C3 witness: the amended bounds evaluated at a mapping with one 50-item
list value and budget 100. -/
theorem compactToolResult_budget_and_entries_witness :
    (compactToolResult 100 (.obj [(toL "xs", .arr (List.replicate 50 JVal.null))])).length ≤ 115 ∧
    compactVal (.arr (List.replicate 50 JVal.null)) =
      .arr ((List.replicate 50 JVal.null).take 10 ++ [moreItemsMarker 40]) ∧
    (toL "xs", JVal.arr ((List.replicate 50 JVal.null).take 10 ++ [moreItemsMarker 40])) ∈
      compactObjEntries [(toL "xs", .arr (List.replicate 50 JVal.null))] :=
  ⟨compactToolResult_budget_and_entries.1 100 _,
   (compactToolResult_budget_and_entries.2.1 _ (by decide)).1,
   compactToolResult_budget_and_entries.2.2 _ _ _ (List.Mem.head _) (by decide)⟩

/-- C3 counterexample: with the budget configured at 20 characters, a
mapping result serializing to 37 characters compacts to 35 characters — the
compacted text exceeds the configured budget (by the appended marker). -/
theorem compactToolResult_exceeds_budget :
    ¬ ((compactToolResult 20
        (.obj [(toL "k", .str (toL "aaaaaaaaaaaaaaaaaaaaaaaaaaaaaa"))])).length ≤ 20) := by
  decide

/-- A binding for a different key does not change a dictionary lookup. -/
theorem getv_cons_ne (k' : Str) (v : JVal) (args : ArgDict) (k : Str) (h : ¬ k' = k) :
    getv ((k', v) :: args) k = getv args k := by
  unfold getv
  rw [List.find?_cons_of_neg]
  simp [h]

theorem vReqNumGt0_cons_ne (k' : Str) (v : JVal) (args : ArgDict) (k : Str) (h : ¬ k' = k) :
    vReqNumGt0 ((k', v) :: args) k = vReqNumGt0 args k := by
  unfold vReqNumGt0
  rw [getv_cons_ne _ _ _ _ h]

theorem vOptNumGt0_cons_ne (k' : Str) (v : JVal) (args : ArgDict) (k : Str) (h : ¬ k' = k) :
    vOptNumGt0 ((k', v) :: args) k = vOptNumGt0 args k := by
  unfold vOptNumGt0
  rw [getv_cons_ne _ _ _ _ h]

theorem vReqTxType_cons_ne (k' : Str) (v : JVal) (args : ArgDict) (k : Str) (h : ¬ k' = k) :
    vReqTxType ((k', v) :: args) k = vReqTxType args k := by
  unfold vReqTxType
  rw [getv_cons_ne _ _ _ _ h]

theorem vOptTxType_cons_ne (k' : Str) (v : JVal) (args : ArgDict) (k : Str) (h : ¬ k' = k) :
    vOptTxType ((k', v) :: args) k = vOptTxType args k := by
  unfold vOptTxType
  rw [getv_cons_ne _ _ _ _ h]

theorem vReqStr_cons_ne (k' : Str) (v : JVal) (args : ArgDict) (k : Str) (h : ¬ k' = k) :
    vReqStr ((k', v) :: args) k = vReqStr args k := by
  unfold vReqStr
  rw [getv_cons_ne _ _ _ _ h]

theorem vOptStr_cons_ne (k' : Str) (v : JVal) (args : ArgDict) (k : Str) (h : ¬ k' = k) :
    vOptStr ((k', v) :: args) k = vOptStr args k := by
  unfold vOptStr
  rw [getv_cons_ne _ _ _ _ h]

theorem vOptDT_cons_ne (k' : Str) (v : JVal) (args : ArgDict) (k : Str) (h : ¬ k' = k) :
    vOptDT ((k', v) :: args) k = vOptDT args k := by
  unfold vOptDT
  rw [getv_cons_ne _ _ _ _ h]

theorem vReqUuid_cons_ne (k' : Str) (v : JVal) (args : ArgDict) (k : Str) (h : ¬ k' = k) :
    vReqUuid ((k', v) :: args) k = vReqUuid args k := by
  unfold vReqUuid
  rw [getv_cons_ne _ _ _ _ h]

theorem vIntRange_cons_ne (k' : Str) (v : JVal) (args : ArgDict) (k : Str) (lo hi : Int)
    (dflt : Option Nat) (h : ¬ k' = k) :
    vIntRange ((k', v) :: args) k lo hi dflt = vIntRange args k lo hi dflt := by
  unfold vIntRange
  rw [getv_cons_ne _ _ _ _ h]

theorem vOptIntRange_cons_ne (k' : Str) (v : JVal) (args : ArgDict) (k : Str) (lo hi : Int)
    (h : ¬ k' = k) :
    vOptIntRange ((k', v) :: args) k lo hi = vOptIntRange args k lo hi := by
  unfold vOptIntRange
  rw [getv_cons_ne _ _ _ _ h, vIntRange_cons_ne _ _ _ _ _ _ _ h]

theorem vGroupBy_cons_ne (k' : Str) (v : JVal) (args : ArgDict) (h : ¬ k' = toL "group_by") :
    vGroupBy ((k', v) :: args) = vGroupBy args := by
  unfold vGroupBy
  rw [getv_cons_ne _ _ _ _ h]

/-- Schema validation of list_transactions ignores keys it does not declare. -/
theorem parseListTx_cons (k' : Str) (v : JVal) (args : ArgDict)
    (h1 : ¬ k' = toL "limit") (h2 : ¬ k' = toL "from_date") (h3 : ¬ k' = toL "to_date") :
    parseListTx ((k', v) :: args) = parseListTx args := by
  unfold parseListTx
  rw [vIntRange_cons_ne _ _ _ _ _ _ _ h1, vOptDT_cons_ne _ _ _ _ h2, vOptDT_cons_ne _ _ _ _ h3]

/-- Schema validation of create_transaction ignores keys it does not declare. -/
theorem parseCreateTx_cons (k' : Str) (v : JVal) (args : ArgDict)
    (h1 : ¬ k' = toL "amount") (h2 : ¬ k' = toL "type") (h3 : ¬ k' = toL "category")
    (h4 : ¬ k' = toL "description") (h5 : ¬ k' = toL "occurred_at") :
    parseCreateTx ((k', v) :: args) = parseCreateTx args := by
  unfold parseCreateTx
  rw [vReqNumGt0_cons_ne _ _ _ _ h1, vReqTxType_cons_ne _ _ _ _ h2, vReqStr_cons_ne _ _ _ _ h3,
      vOptStr_cons_ne _ _ _ _ h4, vOptDT_cons_ne _ _ _ _ h5]

/-- Schema validation of analyze_spending ignores keys it does not declare. -/
theorem parseAnalyze_cons (k' : Str) (v : JVal) (args : ArgDict)
    (h1 : ¬ k' = toL "from_date") (h2 : ¬ k' = toL "to_date") (h3 : ¬ k' = toL "group_by")
    (h4 : ¬ k' = toL "top_n") :
    parseAnalyze ((k', v) :: args) = parseAnalyze args := by
  unfold parseAnalyze
  rw [vOptDT_cons_ne _ _ _ _ h1, vOptDT_cons_ne _ _ _ _ h2, vGroupBy_cons_ne _ _ _ h3,
      vOptIntRange_cons_ne _ _ _ _ _ _ h4]

/-- Schema validation of update_transaction ignores keys it does not declare. -/
theorem parseUpdateTx_cons (k' : Str) (v : JVal) (args : ArgDict)
    (h1 : ¬ k' = toL "transaction_id") (h2 : ¬ k' = toL "amount") (h3 : ¬ k' = toL "type")
    (h4 : ¬ k' = toL "category") (h5 : ¬ k' = toL "description")
    (h6 : ¬ k' = toL "occurred_at") :
    parseUpdateTx ((k', v) :: args) = parseUpdateTx args := by
  unfold parseUpdateTx
  rw [vReqUuid_cons_ne _ _ _ _ h1, vOptNumGt0_cons_ne _ _ _ _ h2, vOptTxType_cons_ne _ _ _ _ h3,
      vOptStr_cons_ne _ _ _ _ h4, vOptStr_cons_ne _ _ _ _ h5, vOptDT_cons_ne _ _ _ _ h6]

/-- Schema validation of delete_transaction ignores keys it does not declare. -/
theorem parseDeleteTx_cons (k' : Str) (v : JVal) (args : ArgDict)
    (h1 : ¬ k' = toL "transaction_id") :
    parseDeleteTx ((k', v) :: args) = parseDeleteTx args := by
  unfold parseDeleteTx
  rw [vReqUuid_cons_ne _ _ _ _ h1]

/-- The executor dispatch is insensitive to any argument key outside the
declared schemas. -/
theorem executeTool_extra_key (now : DT) (db : DB) (uid : Nat) (name : Str) (args : ArgDict)
    (key : Str) (v : JVal)
    (h1 : ¬ key = toL "limit") (h2 : ¬ key = toL "from_date") (h3 : ¬ key = toL "to_date")
    (h4 : ¬ key = toL "amount") (h5 : ¬ key = toL "type") (h6 : ¬ key = toL "category")
    (h7 : ¬ key = toL "description") (h8 : ¬ key = toL "occurred_at")
    (h9 : ¬ key = toL "group_by") (h10 : ¬ key = toL "top_n")
    (h11 : ¬ key = toL "transaction_id") :
    executeTool now db uid name ((key, v) :: args) = executeTool now db uid name args := by
  unfold executeTool
  split_ifs
  · rfl
  · rw [parseListTx_cons _ _ _ h1 h2 h3]
  · rw [parseCreateTx_cons _ _ _ h4 h5 h6 h7 h8]
  · rw [parseAnalyze_cons _ _ _ h2 h3 h9 h10]
  · rw [parseUpdateTx_cons _ _ _ h11 h4 h5 h6 h7 h8]
  · rw [parseDeleteTx_cons _ _ _ h11]
  · rfl

/-- A successful create extends the store with one row owned by the caller. -/
theorem toolCreateTransaction_db (now : DT) (db : DB) (uid : Nat) (i : CreateTransactionInput)
    (r : JVal) (db' : DB) (h : toolCreateTransaction now db uid i = .ok (r, db')) :
    ∃ tx : Tx, tx.user = uid ∧ db'.txs = db.txs ++ [tx] := by
  unfold toolCreateTransaction at h
  split at h
  · unfold createUserTransaction at h
    by_cases ha : i.amount ≤ 0
    · rw [if_pos ha] at h
      simp at h
    · rw [if_neg ha] at h
      simp only [Except.ok.injEq, Prod.mk.injEq] at h
      exact ⟨_, rfl, by rw [← h.2]⟩
  · simp at h

/-- A successful update rewrites only rows matching the id AND the caller. -/
theorem toolUpdateTransaction_db (db : DB) (uid : Nat) (i : UpdateTransactionInput)
    (r : JVal) (db' : DB) (h : toolUpdateTransaction db uid i = .ok (r, db')) :
    db'.txs = db.txs ∨
    ∃ u', db'.txs = db.txs.map (fun t =>
      if t.id == i.transactionId && t.user == uid then applyTxUpdate u' t else t) := by
  unfold toolUpdateTransaction at h
  split at h
  · simp at h
  · split at h
    · unfold updateUserTransaction at h
      split at h
      · simp at h
      · simp at h
      · rename_i tx db2 heq
        simp only [Except.ok.injEq, Prod.mk.injEq] at h
        split at heq
        · simp at heq
        · split at heq
          · simp only [Except.ok.injEq, Option.some.injEq, Prod.mk.injEq] at heq
            exact Or.inl (by rw [← h.2, ← heq.2])
          · split at heq
            · simp at heq
            · simp only [Except.ok.injEq, Option.some.injEq, Prod.mk.injEq] at heq
              exact Or.inr ⟨stripFields i.fields, by rw [← h.2, ← heq.2]⟩
    · simp at h

/-- A successful delete removes only rows matching the id AND the caller. -/
theorem toolDeleteTransaction_db (db : DB) (uid : Nat) (i : DeleteTransactionInput)
    (r : JVal) (db' : DB) (h : toolDeleteTransaction db uid i = .ok (r, db')) :
    db'.txs = db.txs.filter (fun t => !(t.id == i.transactionId && t.user == uid)) := by
  unfold toolDeleteTransaction at h
  split at h
  · simp at h
  · split at h
    · simp at h
    · simp only [Except.ok.injEq, Prod.mk.injEq] at h
      rw [← h.2]
      rfl

/-- applyTxUpdate never changes the owning user of a row. -/
theorem applyTxUpdate_user (u : TxUpdateFields) (t : Tx) : (applyTxUpdate u t).user = t.user := rfl

/-- Every dispatch path preserves the rows of other owners and only adds or
rewrites rows of the calling owner. -/
theorem executeTool_touches_only_owner (now : DT) (db : DB) (uid : Nat) (name : Str)
    (args : ArgDict) :
    (∀ tx ∈ db.txs, tx.user ≠ uid → tx ∈ (executeTool now db uid name args).2.txs) ∧
    (∀ tx ∈ (executeTool now db uid name args).2.txs, tx ∉ db.txs → tx.user = uid) := by
  have hcase :
      (executeTool now db uid name args).2.txs = db.txs ∨
      (∃ tx0 : Tx, tx0.user = uid ∧ (executeTool now db uid name args).2.txs = db.txs ++ [tx0]) ∨
      (∃ tid u', (executeTool now db uid name args).2.txs = db.txs.map (fun t =>
        if t.id == tid && t.user == uid then applyTxUpdate u' t else t)) ∨
      (∃ tid, (executeTool now db uid name args).2.txs = db.txs.filter (fun t =>
        !(t.id == tid && t.user == uid))) := by
    unfold executeTool
    split_ifs
    · exact Or.inl rfl
    · split
      · exact Or.inl rfl
      · exact Or.inl rfl
    · split
      · exact Or.inl rfl
      · rename_i i hi
        split
        · exact Or.inl rfl
        · rename_i r1 db1 hp
          obtain ⟨tx0, htx0, hdb⟩ := toolCreateTransaction_db now db uid i r1 db1 hp
          exact Or.inr (Or.inl ⟨tx0, htx0, hdb⟩)
    · split
      · exact Or.inl rfl
      · exact Or.inl rfl
    · split
      · exact Or.inl rfl
      · rename_i i hi
        split
        · exact Or.inl rfl
        · rename_i r1 db1 hp
          rcases toolUpdateTransaction_db db uid i r1 db1 hp with hdb | ⟨u', hdb⟩
          · exact Or.inl hdb
          · exact Or.inr (Or.inr (Or.inl ⟨i.transactionId, u', hdb⟩))
    · split
      · exact Or.inl rfl
      · rename_i i hi
        split
        · exact Or.inl rfl
        · rename_i r1 db1 hp
          exact Or.inr (Or.inr (Or.inr ⟨i.transactionId,
            toolDeleteTransaction_db db uid i r1 db1 hp⟩))
    · exact Or.inl rfl
  rcases hcase with hdb | ⟨tx0, htx0, hdb⟩ | ⟨tid, u', hdb⟩ | ⟨tid, hdb⟩
  · rw [hdb]
    exact ⟨fun tx h _ => h, fun tx h hn => absurd h hn⟩
  · rw [hdb]
    constructor
    · intro tx h _
      exact List.mem_append_left _ h
    · intro tx h hn
      rcases List.mem_append.mp h with h' | h'
      · exact absurd h' hn
      · rw [List.mem_singleton.mp h']
        exact htx0
  · rw [hdb]
    constructor
    · intro tx h hu
      have hf : (if tx.id == tid && tx.user == uid then applyTxUpdate u' tx else tx) = tx := by
        have : (tx.user == uid) = false := by
          simp [hu]
        simp [this]
      rw [← hf]
      exact List.mem_map_of_mem _ h
    · intro tx h hn
      obtain ⟨t, ht, hft⟩ := List.mem_map.mp h
      by_cases hc : (t.id == tid && t.user == uid) = true
      · rw [if_pos hc] at hft
        have hu : t.user = uid := by
          have := (Bool.and_eq_true _ _).mp hc
          exact beq_iff_eq.mp this.2
        rw [← hft, applyTxUpdate_user]
        exact hu
      · rw [if_neg hc] at hft
        exact absurd (hft ▸ ht) hn
  · rw [hdb]
    constructor
    · intro tx h hu
      refine List.mem_filter.mpr ⟨h, ?_⟩
      have : (tx.user == uid) = false := by
        simp [hu]
      simp [this]
    · intro tx h hn
      exact absurd (List.mem_filter.mp h).1 hn

/-- C1: every tool invocation is scoped to the caller-supplied user_id, never
to an owner identifier inside the model-supplied arguments: injecting a
user_id or owner field into the raw payload changes neither the result nor
the resulting store, and the dispatch touches only the calling owner's rows —
other owners' rows survive unchanged and every added or rewritten row belongs
to the calling owner. -/
theorem executeTool_owner_scoped (now : DT) (db : DB) (uid : Nat) (name : Str)
    (args : ArgDict) (key : Str) (v : JVal)
    (hkey : key = toL "user_id" ∨ key = toL "owner")
    (hfresh : getv args key = none) :
    executeTool now db uid name ((key, v) :: args) = executeTool now db uid name args ∧
    (∀ tx ∈ db.txs, tx.user ≠ uid → tx ∈ (executeTool now db uid name args).2.txs) ∧
    (∀ tx ∈ (executeTool now db uid name args).2.txs, tx ∉ db.txs → tx.user = uid) := by
  refine ⟨?_, (executeTool_touches_only_owner now db uid name args).1,
    (executeTool_touches_only_owner now db uid name args).2⟩
  rcases hkey with rfl | rfl
  · exact executeTool_extra_key now db uid name args _ v (by decide) (by decide) (by decide)
      (by decide) (by decide) (by decide) (by decide) (by decide) (by decide) (by decide)
      (by decide)
  · exact executeTool_extra_key now db uid name args _ v (by decide) (by decide) (by decide)
      (by decide) (by decide) (by decide) (by decide) (by decide) (by decide) (by decide)
      (by decide)

/-- C1 witness: the scoping invariance evaluated for a create payload with an
injected user_id field against the concrete store. -/
theorem executeTool_owner_scoped_witness :
    executeTool wNow wDb 1 (toL "create_transaction")
        ((toL "user_id", .str (toL "999")) :: wCreateArgs) =
      executeTool wNow wDb 1 (toL "create_transaction") wCreateArgs ∧
    (∀ tx ∈ wDb.txs, tx.user ≠ 1 →
      tx ∈ (executeTool wNow wDb 1 (toL "create_transaction") wCreateArgs).2.txs) ∧
    (∀ tx ∈ (executeTool wNow wDb 1 (toL "create_transaction") wCreateArgs).2.txs,
      tx ∉ wDb.txs → tx.user = 1) :=
  executeTool_owner_scoped wNow wDb 1 (toL "create_transaction") wCreateArgs
    (toL "user_id") (.str (toL "999")) (Or.inl rfl) rfl

/-- The update dispatch path of execute_tool. -/
theorem executeTool_update_eq (now : DT) (db : DB) (uid : Nat) (args : ArgDict) :
    executeTool now db uid (toL "update_transaction") args =
      (match parseUpdateTx args with
       | .error es => (.error (invalidArgsMsg (toL "update_transaction") es), db)
       | .ok i =>
         match toolUpdateTransaction db uid i with
         | .error m => (.error m, db)
         | .ok (r, db') => (.ok r, db')) := rfl

/-- The delete dispatch path of execute_tool. -/
theorem executeTool_delete_eq (now : DT) (db : DB) (uid : Nat) (args : ArgDict) :
    executeTool now db uid (toL "delete_transaction") args =
      (match parseDeleteTx args with
       | .error es => (.error (invalidArgsMsg (toL "delete_transaction") es), db)
       | .ok i =>
         match toolDeleteTransaction db uid i with
         | .error m => (.error m, db)
         | .ok (r, db') => (.ok r, db')) := rfl

/-- When the ownership lookup misses, update behaves identically over any two
stores and always fails. -/
theorem toolUpdateTransaction_congr_notFound (db1 db2 : DB) (uid : Nat)
    (i : UpdateTransactionInput)
    (hg1 : getUserTransaction db1 i.transactionId uid = none)
    (hg2 : getUserTransaction db2 i.transactionId uid = none) :
    toolUpdateTransaction db1 uid i = toolUpdateTransaction db2 uid i ∧
    ∃ e, toolUpdateTransaction db1 uid i = .error e := by
  unfold toolUpdateTransaction
  by_cases hall : (i.fields.amount.isNone && i.fields.type.isNone && i.fields.category.isNone &&
      i.fields.description.isNone && i.fields.occurredAt.isNone) = true
  · simp only [if_pos hall]
    exact ⟨trivial, _, rfl⟩
  · simp only [if_neg hall]
    cases herr : updateFieldErrs i.fields with
    | nil =>
      simp only [herr, updateUserTransaction, hg1, hg2]
      exact ⟨trivial, _, rfl⟩
    | cons e es =>
      simp only [herr]
      exact ⟨trivial, _, rfl⟩

/-- When the ownership lookup misses, delete fails with the shared not-found
signal. -/
theorem toolDeleteTransaction_notFound (db : DB) (uid : Nat) (i : DeleteTransactionInput)
    (hg : getUserTransaction db i.transactionId uid = none) :
    toolDeleteTransaction db uid i = .error (notFoundMsg i.transactionId) := by
  unfold toolDeleteTransaction
  simp only [hg]

/-- C6: invoking the executor for update_transaction or delete_transaction
with an id that does not exist and with an id that exists but belongs to a
different owner produce the same outward signal — the identical error value —
so nothing distinguishes foreign-owned ids from absent ones. -/
theorem notFound_indistinguishable (now : DT) (uid tid : Nat) (db1 db2 : DB) (args : ArgDict)
    (h1 : ∀ tx ∈ db1.txs, tx.id ≠ tid)
    (h2 : ∀ tx ∈ db2.txs, tx.id = tid → tx.user ≠ uid) :
    (∀ i, parseUpdateTx args = .ok i → i.transactionId = tid →
      (executeTool now db1 uid (toL "update_transaction") args).1 =
        (executeTool now db2 uid (toL "update_transaction") args).1 ∧
      ∃ e, (executeTool now db1 uid (toL "update_transaction") args).1 = .error e) ∧
    (∀ i, parseDeleteTx args = .ok i → i.transactionId = tid →
      (executeTool now db1 uid (toL "delete_transaction") args).1 =
        (executeTool now db2 uid (toL "delete_transaction") args).1 ∧
      (executeTool now db1 uid (toL "delete_transaction") args).1 =
        .error (notFoundMsg tid)) := by
  have g1 : ∀ j, getUserTransaction db1 tid j = none := by
    intro j
    unfold getUserTransaction
    rw [List.find?_eq_none]
    intro tx htx
    simp [h1 tx htx]
  have g2 : getUserTransaction db2 tid uid = none := by
    unfold getUserTransaction
    rw [List.find?_eq_none]
    intro tx htx
    by_cases hid : tx.id = tid
    · simp [h2 tx htx hid]
    · simp [hid]
  constructor
  · intro i hp hid
    obtain ⟨hcongr, e, herr⟩ :=
      toolUpdateTransaction_congr_notFound db1 db2 uid i (hid ▸ g1 uid) (hid ▸ g2)
    have herr2 : toolUpdateTransaction db2 uid i = .error e := by
      rw [← hcongr]
      exact herr
    rw [executeTool_update_eq, executeTool_update_eq]
    simp only [hp, herr, herr2]
    exact ⟨trivial, e, rfl⟩
  · intro i hp hid
    rw [executeTool_delete_eq, executeTool_delete_eq]
    simp only [hp, toolDeleteTransaction_notFound db1 uid i (hid ▸ g1 uid),
      toolDeleteTransaction_notFound db2 uid i (hid ▸ g2)]
    exact ⟨trivial, hid ▸ rfl⟩

/-- C6 witness: the indistinguishability evaluated between the empty store
and the store holding transaction 5 under a different owner. -/
theorem notFound_indistinguishable_witness :
    ((executeTool wNow wDbEmpty 1 (toL "update_transaction") wTidArgs).1 =
      (executeTool wNow wDbForeign 1 (toL "update_transaction") wTidArgs).1 ∧
     ∃ e, (executeTool wNow wDbEmpty 1 (toL "update_transaction") wTidArgs).1 = .error e) ∧
    ((executeTool wNow wDbEmpty 1 (toL "delete_transaction") wTidArgs).1 =
      (executeTool wNow wDbForeign 1 (toL "delete_transaction") wTidArgs).1 ∧
     (executeTool wNow wDbEmpty 1 (toL "delete_transaction") wTidArgs).1 =
       .error (notFoundMsg 5)) := by
  have h := notFound_indistinguishable wNow 1 5 wDbEmpty wDbForeign wTidArgs
    (by decide) (by decide)
  exact ⟨h.1 wUpdInp rfl rfl, h.2 wDelInp rfl rfl⟩

/-- The create dispatch path of execute_tool. -/
theorem executeTool_create_eq (now : DT) (db : DB) (uid : Nat) (args : ArgDict) :
    executeTool now db uid (toL "create_transaction") args =
      (match parseCreateTx args with
       | .error es => (.error (invalidArgsMsg (toL "create_transaction") es), db)
       | .ok i =>
         match toolCreateTransaction now db uid i with
         | .error m => (.error m, db)
         | .ok (r, db') => (.ok r, db')) := rfl

/-- Create validation rejects any non-positive amount. -/
theorem parseCreateTx_amount_nonpos (args : ArgDict) (a : Rat) (ha : a ≤ 0)
    (hg : getv args (toL "amount") = some (.num a)) :
    ∃ es, parseCreateTx args = .error es := by
  have hv : vReqNumGt0 args (toL "amount") =
      .error (toL "amount", toL "Input should be greater than 0") := by
    unfold vReqNumGt0
    rw [hg]
    exact if_neg (not_lt.mpr ha)
  unfold parseCreateTx
  rw [hv]
  cases vReqTxType args (toL "type") <;> cases vReqStr args (toL "category") <;>
    cases vOptStr args (toL "description") <;> cases vOptDT args (toL "occurred_at") <;>
    exact ⟨_, rfl⟩

/-- Update validation rejects any non-positive provided amount. -/
theorem parseUpdateTx_amount_nonpos (args : ArgDict) (a : Rat) (ha : a ≤ 0)
    (hg : getv args (toL "amount") = some (.num a)) :
    ∃ es, parseUpdateTx args = .error es := by
  have hv : vOptNumGt0 args (toL "amount") =
      .error (toL "amount", toL "Input should be greater than 0") := by
    unfold vOptNumGt0
    rw [hg]
    exact if_neg (not_lt.mpr ha)
  unfold parseUpdateTx
  rw [hv]
  cases vReqUuid args (toL "transaction_id") <;> cases vOptTxType args (toL "type") <;>
    cases vOptStr args (toL "category") <;> cases vOptStr args (toL "description") <;>
    cases vOptDT args (toL "occurred_at") <;> exact ⟨_, rfl⟩

/-- C10: the runtime validation bound on amount is strictly greater-than-0,
weaker than the minimum 0.01 advertised in the declared tool schema: the
schema minimum is 0.01 for create and update, yet an amount of 0.005
validates and dispatches successfully (the row is persisted, shown for any
category within the 255-character TransactionCreate bound), while every
amount less than or equal to 0 fails validation and leaves the store
untouched for both create_transaction and update_transaction. -/
theorem amount_bound_gap :
    toolSchemaAmountMin (toL "create_transaction") = some (mkRat 1 100) ∧
    toolSchemaAmountMin (toL "update_transaction") = some (mkRat 1 100) ∧
    (0 : Rat) < mkRat 1 200 ∧ mkRat 1 200 < mkRat 1 100 ∧
    (∀ (now : DT) (db : DB) (uid : Nat) (c : Str), c.length ≤ 255 →
      (executeTool now db uid (toL "create_transaction")
        [(toL "amount", .num (mkRat 1 200)), (toL "type", .str (toL "EXPENSE")),
         (toL "category", .str c)]).1 =
        .ok (txJson { id := db.nextId, user := uid, amount := mkRat 1 200, type := .expense,
                      category := c, description := none, occurredAt := some now,
                      createdAt := some now }) ∧
      (executeTool now db uid (toL "create_transaction")
        [(toL "amount", .num (mkRat 1 200)), (toL "type", .str (toL "EXPENSE")),
         (toL "category", .str c)]).2.txs =
        db.txs ++ [{ id := db.nextId, user := uid, amount := mkRat 1 200, type := .expense,
                     category := c, description := none, occurredAt := some now,
                     createdAt := some now }]) ∧
    (∀ (now : DT) (db : DB) (uid : Nat) (args : ArgDict) (a : Rat), a ≤ 0 →
      getv args (toL "amount") = some (.num a) →
      (∃ e, (executeTool now db uid (toL "create_transaction") args).1 = .error e) ∧
      (executeTool now db uid (toL "create_transaction") args).2 = db) ∧
    (∀ (now : DT) (db : DB) (uid : Nat) (args : ArgDict) (a : Rat), a ≤ 0 →
      getv args (toL "amount") = some (.num a) →
      (∃ e, (executeTool now db uid (toL "update_transaction") args).1 = .error e) ∧
      (executeTool now db uid (toL "update_transaction") args).2 = db) := by
  refine ⟨rfl, rfl, by decide, by decide, ?_, ?_, ?_⟩
  · intro now db uid c hc
    have hce : createFieldErrs
        { amount := mkRat 1 200, type := .expense, category := c, description := none,
          occurredAt := none } = [] := by
      unfold createFieldErrs
      rw [if_neg (Nat.not_lt.mpr hc)]
      rfl
    have h1 : executeTool now db uid (toL "create_transaction")
        [(toL "amount", .num (mkRat 1 200)), (toL "type", .str (toL "EXPENSE")),
         (toL "category", .str c)] =
        (.ok (txJson { id := db.nextId, user := uid, amount := mkRat 1 200, type := .expense,
                       category := c, description := none, occurredAt := some now,
                       createdAt := some now }),
         { txs := db.txs ++ [{ id := db.nextId, user := uid, amount := mkRat 1 200,
                               type := .expense, category := c, description := none,
                               occurredAt := some now, createdAt := some now }],
           nextId := db.nextId + 1 }) := by
      rw [executeTool_create_eq]
      show (match toolCreateTransaction now db uid
            { amount := mkRat 1 200, type := .expense, category := c, description := none,
              occurredAt := none } with
          | .error m => (Except.error m, db)
          | .ok (r, db') => (Except.ok r, db')) = _
      unfold toolCreateTransaction
      simp only [hce]
      exact rfl
    exact ⟨by rw [h1], by rw [h1]⟩
  · intro now db uid args a ha hg
    obtain ⟨es, hp⟩ := parseCreateTx_amount_nonpos args a ha hg
    rw [executeTool_create_eq]
    simp only [hp]
    exact ⟨⟨_, rfl⟩, trivial⟩
  · intro now db uid args a ha hg
    obtain ⟨es, hp⟩ := parseUpdateTx_amount_nonpos args a ha hg
    rw [executeTool_update_eq]
    simp only [hp]
    exact ⟨⟨_, rfl⟩, trivial⟩

/-- C10 witness: the gap evaluated concretely — 0.005 creates a row in the
empty store, amount 0 is rejected by create and update with the store kept
intact. -/
theorem amount_bound_gap_witness :
    (executeTool wNow wDbEmpty 1 (toL "create_transaction")
      [(toL "amount", .num (mkRat 1 200)), (toL "type", .str (toL "EXPENSE")),
       (toL "category", .str (toL "Food"))]).2.txs.length = 1 ∧
    (∃ e, (executeTool wNow wDbEmpty 1 (toL "create_transaction")
      [(toL "amount", .num 0), (toL "type", .str (toL "EXPENSE")),
       (toL "category", .str (toL "Food"))]).1 = .error e) ∧
    (executeTool wNow wDbEmpty 1 (toL "create_transaction")
      [(toL "amount", .num 0), (toL "type", .str (toL "EXPENSE")),
       (toL "category", .str (toL "Food"))]).2 = wDbEmpty ∧
    (∃ e, (executeTool wNow wDbForeign 1 (toL "update_transaction")
      [(toL "transaction_id", .str (toL "5")), (toL "amount", .num (-3))]).1 = .error e) ∧
    (executeTool wNow wDbForeign 1 (toL "update_transaction")
      [(toL "transaction_id", .str (toL "5")), (toL "amount", .num (-3))]).2 = wDbForeign := by
  have h := amount_bound_gap
  have hc := (h.2.2.2.2.1 wNow wDbEmpty 1 (toL "Food") (by decide)).2
  have hz := h.2.2.2.2.2.1 wNow wDbEmpty 1
    [(toL "amount", .num 0), (toL "type", .str (toL "EXPENSE")),
     (toL "category", .str (toL "Food"))] 0 (by decide) rfl
  have hneg := h.2.2.2.2.2.2 wNow wDbForeign 1
    [(toL "transaction_id", .str (toL "5")), (toL "amount", .num (-3))] (-3) (by decide) rfl
  exact ⟨by rw [hc]; rfl, hz.1, hz.2, hneg.1, hneg.2⟩

/-- Adding an amount to a group keeps the sum of group totals in step. -/
theorem addGroup_sum (acc : List (Str × Rat)) (k : Str) (a : Rat) :
    ((addGroup acc k a).map (fun kv => kv.2)).sum = (acc.map (fun kv => kv.2)).sum + a := by
  induction acc with
  | nil => simp [addGroup]
  | cons hd t ih =>
    obtain ⟨k0, v⟩ := hd
    by_cases hk : k0 = k
    · simp [addGroup, hk]
      ring
    · simp [addGroup, hk, ih]
      ring

/-- Folding rows into groups accumulates exactly the sum of their amounts. -/
theorem foldl_addGroup_sum (g : GroupBy) (txs : List Tx) (acc : List (Str × Rat)) :
    ((txs.foldl (fun acc tx => addGroup acc (groupKey g tx) tx.amount) acc).map
      (fun kv => kv.2)).sum =
      (acc.map (fun kv => kv.2)).sum + (txs.map (fun t => t.amount)).sum := by
  induction txs generalizing acc with
  | nil => simp
  | cons hd t ih =>
    simp only [List.foldl_cons, ih, addGroup_sum, List.map_cons, List.sum_cons]
    ring

/-- The accumulated group list always contains the key just added. -/
theorem addGroup_mem_self (acc : List (Str × Rat)) (k : Str) (a : Rat) :
    ∃ v, (k, v) ∈ addGroup acc k a := by
  induction acc with
  | nil => exact ⟨a, List.Mem.head _⟩
  | cons hd t ih =>
    obtain ⟨k0, v0⟩ := hd
    by_cases hk : k0 = k
    · subst hk
      exact ⟨v0 + a, by simp [addGroup]⟩
    · obtain ⟨v, hv⟩ := ih
      exact ⟨v, by simp only [addGroup, if_neg hk]; exact List.Mem.tail _ hv⟩

/-- Accumulating never removes a key already present. -/
theorem addGroup_mem_mono (acc : List (Str × Rat)) (k k' : Str) (a : Rat)
    (h : ∃ v, (k', v) ∈ acc) : ∃ v, (k', v) ∈ addGroup acc k a := by
  induction acc with
  | nil =>
    obtain ⟨v, hv⟩ := h
    exact absurd hv (List.not_mem_nil _)
  | cons hd t ih =>
    obtain ⟨k0, v0⟩ := hd
    obtain ⟨v, hv⟩ := h
    by_cases hk : k0 = k
    · subst hk
      rcases List.mem_cons.mp hv with he | ht
      · obtain ⟨rfl, rfl⟩ := Prod.mk.injEq .. ▸ he
        exact ⟨v + a, by simp [addGroup]⟩
      · exact ⟨v, by simp only [addGroup, if_pos rfl]; exact List.Mem.tail _ ht⟩
    · rcases List.mem_cons.mp hv with he | ht
      · exact ⟨v, by simp only [addGroup, if_neg hk]; exact he ▸ List.Mem.head _⟩
      · obtain ⟨v', hv'⟩ := ih ⟨v, ht⟩
        exact ⟨v', by simp only [addGroup, if_neg hk]; exact List.Mem.tail _ hv'⟩

/-- Folding preserves keys already present in the accumulator. -/
theorem foldl_addGroup_mono (g : GroupBy) (txs : List Tx) (acc : List (Str × Rat)) (k' : Str)
    (h : ∃ v, (k', v) ∈ acc) :
    ∃ v, (k', v) ∈ txs.foldl (fun acc t => addGroup acc (groupKey g t) t.amount) acc := by
  induction txs generalizing acc with
  | nil => exact h
  | cons hd t ih => exact ih _ (addGroup_mem_mono _ _ _ _ h)

/-- Every folded row contributes its group key to the result. -/
theorem foldl_addGroup_mem (g : GroupBy) (txs : List Tx) (acc : List (Str × Rat)) (tx : Tx)
    (h : tx ∈ txs) :
    ∃ v, (groupKey g tx, v) ∈ txs.foldl (fun acc t => addGroup acc (groupKey g t) t.amount) acc := by
  induction txs generalizing acc with
  | nil => exact absurd h (List.not_mem_nil _)
  | cons hd t ih =>
    rcases List.mem_cons.mp h with rfl | ht
    · exact foldl_addGroup_mono g t _ _ (addGroup_mem_self _ _ _)
    · exact ih _ ht

instance : IsTotal (Str × Rat) (fun a b => b.2 ≤ a.2) := ⟨fun a b => le_total b.2 a.2⟩

instance : IsTrans (Str × Rat) (fun a b => b.2 ≤ a.2) := ⟨fun _ _ _ h1 h2 => le_trans h2 h1⟩

/-- C8: analyze_spending reports as total exactly the summed amounts of the
owner's EXPENSE rows inside the range (all groups, including ones dropped by
top-N); the sorted groups are pairwise descending by total; a supplied top_n
truncates the results to the first n entries of the untruncated run; and a
filtered row without a timestamp lands in the literal unknown bucket under
day or month grouping. -/
theorem toolAnalyzeSpending_spec (db : DB) (uid : Nat) (inp : AnalyzeSpendingInput) :
    jGet (toolAnalyzeSpending db uid inp) (toL "total") =
      some (.num (((db.txs.filter (fun tx => tx.user == uid && tx.type == TxType.expense &&
        occInRange inp.fromDate inp.toDate tx.occurredAt)).map (fun t => t.amount)).sum)) ∧
    (analyzeSorted db uid inp).Pairwise (fun a b => b.2 ≤ a.2) ∧
    (∀ n, inp.topN = some n → n ≠ 0 →
      analyzeResults db uid inp = (analyzeSorted db uid { inp with topN := none }).take n ∧
      (analyzeResults db uid inp).length ≤ n) ∧
    (∀ tx ∈ db.txs, tx.user = uid → tx.type = TxType.expense →
      occInRange inp.fromDate inp.toDate tx.occurredAt = true → tx.occurredAt = none →
      inp.groupBy ≠ GroupBy.category →
      ∃ v, (toL "unknown", v) ∈ analyzeGrouped db uid inp) := by
  refine ⟨?_, ?_, ?_, ?_⟩
  · have hj : jGet (toolAnalyzeSpending db uid inp) (toL "total") =
        some (.num (((analyzeGrouped db uid inp).map (fun kv => kv.2)).sum)) := rfl
    rw [hj]
    unfold analyzeGrouped analyzeFilter
    rw [foldl_addGroup_sum]
    simp
  · exact List.sorted_insertionSort _ _
  · intro n hn hnz
    have hs : analyzeSorted db uid { inp with topN := none } = analyzeSorted db uid inp := by
      cases inp
      rfl
    constructor
    · simp only [analyzeResults, hn, if_neg hnz, hs]
    · simp only [analyzeResults, hn, if_neg hnz, List.length_take]
      exact Nat.min_le_left _ _
  · intro tx htx hu hty hocc hnone hcat
    have hkey : groupKey inp.groupBy tx = toL "unknown" := by
      cases hg : inp.groupBy
      · exact absurd hg hcat
      · simp [groupKey, hnone]
      · simp [groupKey, hnone]
    have hmem : tx ∈ analyzeFilter db uid inp := by
      unfold analyzeFilter
      rw [List.mem_filter]
      exact ⟨htx, by simp [hu, hty, hocc]⟩
    rw [← hkey]
    exact foldl_addGroup_mem inp.groupBy _ [] tx hmem

/-- C8 witness: the analysis evaluated on a concrete store with one
timestamped expense, one timestamp-free expense and one income row, grouped
by day with top_n = 1. -/
theorem toolAnalyzeSpending_spec_witness :
    jGet (toolAnalyzeSpending wDb 1 wAnInp) (toL "total") =
      some (.num (((wDb.txs.filter (fun tx => tx.user == 1 && tx.type == TxType.expense &&
        occInRange wAnInp.fromDate wAnInp.toDate tx.occurredAt)).map (fun t => t.amount)).sum)) ∧
    analyzeResults wDb 1 wAnInp = (analyzeSorted wDb 1 { wAnInp with topN := none }).take 1 ∧
    (∃ v, (toL "unknown", v) ∈ analyzeGrouped wDb 1 wAnInp) := by
  have h := toolAnalyzeSpending_spec wDb 1 wAnInp
  exact ⟨h.1, (h.2.2.1 1 rfl (by decide)).1,
    h.2.2.2 wTxTransport (by decide) rfl rfl rfl rfl (by decide)⟩

/-- One loop iteration bumps the iteration counter by exactly one. -/
theorem toolLoopStep_iters (cfg : Cfg) (ctx : Ctx) (uid : Nat) (cur : LLMResponse) (s : LoopSt) :
    (toolLoopStep cfg ctx uid cur s).iters = s.iters + 1 := rfl

/-- One loop iteration makes exactly one follow-up provider call. -/
theorem toolLoopStep_llmCalls (cfg : Cfg) (ctx : Ctx) (uid : Nat) (cur : LLMResponse)
    (s : LoopSt) : (toolLoopStep cfg ctx uid cur s).llmCalls = s.llmCalls + 1 := rfl

/-- The loop enters with a zeroed iteration counter. -/
theorem initLoopSt_iters (db : DB) (msgs : List Message) : (initLoopSt db msgs).iters = 0 := rfl

/-- The crash state also counts the iteration begun before the abort. -/
theorem toolLoopCrashSt_iters (ctx : Ctx) (uid : Nat) (cur : LLMResponse) (s : LoopSt) :
    (toolLoopCrashSt ctx uid cur s).iters = s.iters + 1 := rfl

/-- The aborted iteration makes no follow-up provider call. -/
theorem toolLoopCrashSt_llmCalls (ctx : Ctx) (uid : Nat) (cur : LLMResponse) (s : LoopSt) :
    (toolLoopCrashSt ctx uid cur s).llmCalls = s.llmCalls := rfl

/-- A batch whose calls all carry parseable argument text never raises the
UnboundLocalError, whatever the incoming binding state. -/
theorem runBatch_parse_no_crash (ctx : Ctx) (uid : Nat) :
    ∀ (calls : List ToolCall), (∀ c ∈ calls, ∃ a, c.arguments = Except.ok a) →
      ∀ (db : DB) (meta : Meta) (bound : Bool),
        (runBatch ctx uid db meta bound calls).crash = none := by
  intro calls
  induction calls with
  | nil => intro _ db meta bound; rfl
  | cons c cs ih =>
    intro h db meta bound
    obtain ⟨a, ha⟩ := h c (List.mem_cons_self c cs)
    simp only [runBatch, ha]
    exact ih (fun c' hc' => h c' (List.mem_cons_of_mem c hc')) _ _ _

/-- Once tool_args is bound, no later batch crashes. -/
theorem runBatch_bound_no_crash (ctx : Ctx) (uid : Nat) :
    ∀ (calls : List ToolCall) (db : DB) (meta : Meta),
      (runBatch ctx uid db meta true calls).crash = none := by
  intro calls
  induction calls with
  | nil => intro db meta; rfl
  | cons c cs ih =>
    intro db meta
    cases hc : c.arguments with
    | error m => simp [runBatch, hc, ih]
    | ok args => simp [runBatch, hc, ih]

/-- A loop fed only responses whose tool calls carry parseable argument text
never aborts on the UnboundLocalError. -/
theorem toolLoop_no_crash (cfg : Cfg) (oracle : Oracle) (ctx : Ctx) (uid : Nat)
    (h : ∀ i m b r, oracle i m b = .ok r → ∀ c ∈ r.toolCalls, ∃ a, c.arguments = Except.ok a) :
    ∀ (fuel : Nat) (cur : LLMResponse) (s : LoopSt),
      (∀ c ∈ cur.toolCalls, ∃ a, c.arguments = Except.ok a) →
      (toolLoop cfg oracle ctx uid fuel cur s).crash = none := by
  intro fuel
  induction fuel with
  | zero => intro cur s _; rfl
  | succ n ih =>
    intro cur s hcur
    rw [toolLoop]
    split
    · rfl
    · simp only [runBatch_parse_no_crash ctx uid cur.toolCalls hcur s.db s.meta s.bound]
      split
      · rfl
      · rename_i r hr
        split
        · rfl
        · exact ih r _ (h _ _ _ r hr)

/-- The loop performs at most `fuel` further iterations. -/
theorem toolLoop_iters_le (cfg : Cfg) (oracle : Oracle) (ctx : Ctx) (uid : Nat) :
    ∀ (fuel : Nat) (cur : LLMResponse) (s : LoopSt),
      (toolLoop cfg oracle ctx uid fuel cur s).st.iters ≤ s.iters + fuel := by
  intro fuel
  induction fuel with
  | zero => intro cur s; exact Nat.le_add_right _ _
  | succ n ih =>
    intro cur s
    rw [toolLoop]
    split
    · exact Nat.le_add_right _ _
    · split
      · show (toolLoopCrashSt ctx uid cur s).iters ≤ s.iters + (n + 1)
        rw [toolLoopCrashSt_iters]
        omega
      · split
        · show (toolLoopStep cfg ctx uid cur s).iters ≤ s.iters + (n + 1)
          rw [toolLoopStep_iters]
          omega
        · split
          · show (toolLoopStep cfg ctx uid cur s).iters ≤ s.iters + (n + 1)
            rw [toolLoopStep_iters]
            omega
          · refine (ih _ _).trans ?_
            rw [toolLoopStep_iters]
            omega

/-- The loop never loses provider invocations already made. -/
theorem toolLoop_llmCalls_mono (cfg : Cfg) (oracle : Oracle) (ctx : Ctx) (uid : Nat) :
    ∀ (fuel : Nat) (cur : LLMResponse) (s : LoopSt),
      s.llmCalls ≤ (toolLoop cfg oracle ctx uid fuel cur s).st.llmCalls := by
  intro fuel
  induction fuel with
  | zero => intro cur s; exact Nat.le_refl _
  | succ n ih =>
    intro cur s
    rw [toolLoop]
    split
    · exact Nat.le_refl _
    · split
      · show s.llmCalls ≤ (toolLoopCrashSt ctx uid cur s).llmCalls
        rw [toolLoopCrashSt_llmCalls]
      · split
        · show s.llmCalls ≤ (toolLoopStep cfg ctx uid cur s).llmCalls
          rw [toolLoopStep_llmCalls]
          omega
        · split
          · show s.llmCalls ≤ (toolLoopStep cfg ctx uid cur s).llmCalls
            rw [toolLoopStep_llmCalls]
            omega
          · refine le_trans ?_ (ih _ _)
            rw [toolLoopStep_llmCalls]
            omega

/-- Against a provider that always answers with tool calls carrying
parseable argument text and no error tag, the loop consumes its entire
budget. -/
theorem toolLoop_iters_exact (cfg : Cfg) (oracle : Oracle) (ctx : Ctx) (uid : Nat)
    (h : ∀ i m b, ∃ r, oracle i m b = .ok r ∧ r.errTag = none ∧ r.toolCalls ≠ [] ∧
      ∀ c ∈ r.toolCalls, ∃ a, c.arguments = Except.ok a) :
    ∀ (fuel : Nat) (cur : LLMResponse) (s : LoopSt), cur.toolCalls ≠ [] →
      (∀ c ∈ cur.toolCalls, ∃ a, c.arguments = Except.ok a) →
      (toolLoop cfg oracle ctx uid fuel cur s).st.iters = s.iters + fuel := by
  intro fuel
  induction fuel with
  | zero => intro cur s _ _; exact (Nat.add_zero _).symm
  | succ n ih =>
    intro cur s hcur hpar
    rw [toolLoop, if_neg (by simpa [List.isEmpty_iff] using hcur)]
    simp only [runBatch_parse_no_crash ctx uid cur.toolCalls hpar s.db s.meta s.bound]
    obtain ⟨r, hr, htag, htc, hpr⟩ := h s.callIdx (toolLoopStep cfg ctx uid cur s).msgs true
    simp only [hr, htag, Option.isSome_none, Bool.false_eq_true, if_false]
    rw [ih r _ htc hpr, toolLoopStep_iters]
    omega

/-- C2 (amended): the tool loop runs at most the provider-configured maximum
number of iterations — 2 when the configured provider is gemini, 1 for every
other provider, against every model; with a provider that never raises,
never tags an error, and issues only tool calls whose argument text parses,
the run ends in a normal terminal response; and such a model answering every
call with tool calls drives the loop exactly to the cap (given a usable
credential).  The parse proviso is forced by gateway.py 1026: when the first
processed tool call's argument text fails json.loads, the except handler
itself raises UnboundLocalError and no terminal response is produced. -/
theorem processChatMessage_iteration_cap (cfg : Cfg) (oracle : Oracle) (ctx : Ctx) (db : DB)
    (uid : Nat) (userMessage : Str) (recents : List Message) (summary : Option Str)
    (includePack : Bool) :
    (processChatMessage cfg oracle ctx db uid userMessage recents summary includePack).iters ≤
      maxToolIterations cfg ∧
    (cfg.provider = toL "gemini" → maxToolIterations cfg = 2) ∧
    (¬ cfg.provider = toL "gemini" → maxToolIterations cfg = 1) ∧
    ((∀ i m b, ∃ r, oracle i m b = .ok r ∧ r.errTag = none ∧
        ∀ c ∈ r.toolCalls, ∃ a, c.arguments = Except.ok a) →
      ∃ resp,
        (processChatMessage cfg oracle ctx db uid userMessage recents summary
          includePack).result = .ok resp) ∧
    ((∀ i m b, ∃ r, oracle i m b = .ok r ∧ r.errTag = none ∧ r.toolCalls ≠ [] ∧
        ∀ c ∈ r.toolCalls, ∃ a, c.arguments = Except.ok a) →
      (match getApiKey cfg ctx.eph ctx.now uid with
       | none => true
       | some k => k.isEmpty) = false →
      (processChatMessage cfg oracle ctx db uid userMessage recents summary
        includePack).iters = maxToolIterations cfg) := by
  refine ⟨?_, ?_, ?_, ?_, ?_⟩
  · unfold processChatMessage
    split
    · exact Nat.zero_le _
    · split
      · split
        · exact Nat.zero_le _
        · exact Nat.zero_le _
      · rename_i r0 hr0
        split
        · exact Nat.zero_le _
        · split
          · simpa [initLoopSt_iters] using
              toolLoop_iters_le cfg oracle ctx uid (maxToolIterations cfg) r0
                (initLoopSt db (builtMessages ctx db uid userMessage recents summary includePack))
          · split
            · simpa [initLoopSt_iters] using
                toolLoop_iters_le cfg oracle ctx uid (maxToolIterations cfg) r0
                  (initLoopSt db (builtMessages ctx db uid userMessage recents summary includePack))
            · simpa [initLoopSt_iters] using
                toolLoop_iters_le cfg oracle ctx uid (maxToolIterations cfg) r0
                  (initLoopSt db (builtMessages ctx db uid userMessage recents summary includePack))
  · intro hg
    unfold maxToolIterations
    rw [if_pos hg]
  · intro hg
    unfold maxToolIterations
    rw [if_neg hg]
  · intro h
    have hora : ∀ i m b r, oracle i m b = .ok r →
        ∀ c ∈ r.toolCalls, ∃ a, c.arguments = Except.ok a := by
      intro i m b r hr
      obtain ⟨r', hr', _, hp⟩ := h i m b
      rw [hr] at hr'
      injection hr' with h'
      subst h'
      exact hp
    unfold processChatMessage
    split
    · exact ⟨_, rfl⟩
    · obtain ⟨r0, hr0, htag, hp0⟩ :=
        h 0 (builtMessages ctx db uid userMessage recents summary includePack)
          (attachToolsDecision cfg.toolsMode userMessage includePack recents)
      rw [hr0]
      simp only [htag, Option.isSome_none, Bool.false_eq_true, if_false]
      have hnc := toolLoop_no_crash cfg oracle ctx uid hora (maxToolIterations cfg) r0
        (initLoopSt db (builtMessages ctx db uid userMessage recents summary includePack)) hp0
      simp only [hnc, Option.isSome_none, Bool.false_eq_true, if_false]
      split
      · exact ⟨_, rfl⟩
      · exact ⟨_, rfl⟩
  · intro h hkey
    unfold processChatMessage
    rw [if_neg (by simp [hkey])]
    obtain ⟨r0, hr0, htag, htc, hp0⟩ :=
      h 0 (builtMessages ctx db uid userMessage recents summary includePack)
        (attachToolsDecision cfg.toolsMode userMessage includePack recents)
    rw [hr0]
    simp only [htag, Option.isSome_none, Bool.false_eq_true, if_false]
    have hiter := toolLoop_iters_exact cfg oracle ctx uid h (maxToolIterations cfg) r0
      (initLoopSt db (builtMessages ctx db uid userMessage recents summary includePack)) htc hp0
    split
    · simpa [initLoopSt_iters] using hiter
    · split
      · simpa [initLoopSt_iters] using hiter
      · simpa [initLoopSt_iters] using hiter

/-- C2 witness: the caps evaluated against an always-tool-calling provider
whose calls carry parseable argument text — 2 iterations under gemini, 1
elsewhere, and a normal terminal response. -/
theorem processChatMessage_iteration_cap_witness :
    (processChatMessage wCfgGemini wOracleTools wCtx wDbEmpty 1 (toL "oi") [] none
      false).iters ≤ maxToolIterations wCfgGemini ∧
    maxToolIterations wCfgGemini = 2 ∧
    maxToolIterations wCfgOpenai = 1 ∧
    (∃ resp, (processChatMessage wCfgOpenai wOracleTools wCtx wDbEmpty 1 (toL "oi") [] none
      false).result = .ok resp) ∧
    (processChatMessage wCfgGemini wOracleTools wCtx wDbEmpty 1 (toL "oi") [] none
      false).iters = maxToolIterations wCfgGemini := by
  have hg := processChatMessage_iteration_cap wCfgGemini wOracleTools wCtx wDbEmpty 1
    (toL "oi") [] none false
  have ho := processChatMessage_iteration_cap wCfgOpenai wOracleTools wCtx wDbEmpty 1
    (toL "oi") [] none false
  have hparse : ∀ c ∈ [({ id := toL "c", name := toL "get_balance",
                          arguments := Except.ok [] } : ToolCall)],
      ∃ a, c.arguments = Except.ok a := by
    intro c hc
    rw [List.mem_singleton.mp hc]
    exact ⟨[], rfl⟩
  exact ⟨hg.1, hg.2.1 rfl, ho.2.2.1 (by decide),
    ho.2.2.2.1 (fun i m b => ⟨_, rfl, rfl, hparse⟩),
    hg.2.2.2.2 (fun i m b => ⟨_, rfl, rfl, List.cons_ne_nil _ _, hparse⟩) rfl⟩

/-- C2 counterexample: a model that answers every call with one tool call
whose argument text json.loads rejects — the original claim promises a
terminal response for every model returning at least one tool_call per
response, yet the run aborts with the propagated UnboundLocalError of
gateway.py 1026 instead of returning one. -/
theorem processChatMessage_unparseable_args_abort :
    (processChatMessage wCfgOpenai wOracleBadArgs wCtx wDbEmpty 1 (toL "oi") [] none
      false).result = .error { genaiTyped := false, msg := unboundLocalMsg } ∧
    wOracleBadArgs 0 (builtMessages wCtx wDbEmpty 1 (toL "oi") [] none false) true =
      .ok { content := [], toolCalls := [wBadArgsCall], errTag := none } ∧
    wBadArgsCall.arguments =
      .error (toL "Expecting value: line 1 column 1 (char 0)") :=
  ⟨rfl, rfl, rfl⟩

/-- With tool_args bound, the batch produces exactly one ToolResult per
incoming tool call. -/
theorem runBatch_bound_length (ctx : Ctx) (uid : Nat) :
    ∀ (calls : List ToolCall) (db : DB) (meta : Meta),
      (runBatch ctx uid db meta true calls).results.length = calls.length := by
  intro calls
  induction calls with
  | nil => intro db meta; rfl
  | cons c cs ih =>
    intro db meta
    cases hc : c.arguments with
    | error m => simp [runBatch, hc, ih]
    | ok args => simp [runBatch, hc, ih]

/-- With tool_args bound, the k-th ToolResult of a batch is the per-call
handler applied to the k-th call in the database state threaded through the
first k calls. -/
theorem runBatch_bound_get? (ctx : Ctx) (uid : Nat) :
    ∀ (calls : List ToolCall) (db : DB) (meta : Meta) (k : Nat),
      (runBatch ctx uid db meta true calls).results.get? k =
        (calls.get? k).map (fun c =>
          mkToolResult c
            (handleBoundCall ctx.now uid
              (runBatch ctx uid db meta true (calls.take k)).db c).1) := by
  intro calls
  induction calls with
  | nil => intro db meta k; simp [runBatch]
  | cons c cs ih =>
    intro db meta k
    cases hc : c.arguments with
    | error m =>
      cases k with
      | zero => simp [runBatch, hc, handleBoundCall]
      | succ n =>
        have h1 : (runBatch ctx uid db meta true (c :: cs)).results.get? (n + 1) =
            (runBatch ctx uid db meta true cs).results.get? n := by
          simp [runBatch, hc]
        have h2 : (runBatch ctx uid db meta true ((c :: cs).take (n + 1))).db =
            (runBatch ctx uid db meta true (cs.take n)).db := by
          simp [runBatch, hc]
        rw [h1, ih]
        rw [show ((c :: cs).get? (n + 1)) = cs.get? n from rfl, h2]
    | ok args =>
      cases k with
      | zero => simp [runBatch, hc, handleBoundCall]
      | succ n =>
        have h1 : (runBatch ctx uid db meta true (c :: cs)).results.get? (n + 1) =
            (runBatch ctx uid (executeTool ctx.now db uid c.name args).2
              (trackMeta ctx meta c (executeTool ctx.now db uid c.name args).1)
              true cs).results.get? n := by
          simp [runBatch, hc]
        have h2 : (runBatch ctx uid db meta true ((c :: cs).take (n + 1))).db =
            (runBatch ctx uid (executeTool ctx.now db uid c.name args).2
              (trackMeta ctx meta c (executeTool ctx.now db uid c.name args).1)
              true (cs.take n)).db := by
          simp [runBatch, hc]
        rw [h1, ih]
        rw [show ((c :: cs).get? (n + 1)) = cs.get? n from rfl, h2]

/-- C4 (code bug): the claimed per-call isolation is the evident intent of
the catch-all handler at gateway.py 1023-1037, but the handler itself prints
tool_args (line 1026), a variable assigned only inside the try (line 935):
when a call whose argument text json.loads rejects is processed before any
call of the request has bound tool_args, the handler raises
UnboundLocalError — the batch stops, its remaining calls never execute, no
results are recorded, and the loop makes no follow-up call, the exception
propagating out of process_chat_message.  Once some earlier call has bound
tool_args, the intended isolation does hold: every call yields exactly one
ToolResult, failures are converted into the {error, message} payload, and
siblings still execute in the threaded state. -/
theorem toolArgsUnbound_crash (ctx : Ctx) (uid : Nat) (db : DB) (meta : Meta)
    (calls : List ToolCall) :
    (∀ (c : ToolCall) (m : Str) (cs : List ToolCall), c.arguments = .error m →
      (runBatch ctx uid db meta false (c :: cs)).crash = some unboundLocalMsg ∧
      (runBatch ctx uid db meta false (c :: cs)).results = []) ∧
    (∀ (cfg : Cfg) (oracle : Oracle) (fuel : Nat) (cur : LLMResponse) (s : LoopSt)
      (c : ToolCall) (m : Str) (cs : List ToolCall),
      cur.toolCalls = c :: cs → c.arguments = .error m → s.bound = false →
      s.db = db → s.meta = meta →
      (toolLoop cfg oracle ctx uid (fuel + 1) cur s).crash = some unboundLocalMsg ∧
      (toolLoop cfg oracle ctx uid (fuel + 1) cur s).st.llmCalls = s.llmCalls ∧
      (toolLoop cfg oracle ctx uid (fuel + 1) cur s).st.acc = s.acc) ∧
    (runBatch ctx uid db meta true calls).results.length = calls.length ∧
    (runBatch ctx uid db meta true calls).crash = none ∧
    (∀ k, (runBatch ctx uid db meta true calls).results.get? k =
      (calls.get? k).map (fun c =>
        mkToolResult c
          (handleBoundCall ctx.now uid
            (runBatch ctx uid db meta true (calls.take k)).db c).1)) ∧
    (∀ (c : ToolCall) (m : Str),
      mkToolResult c (.error m) =
        { toolCallId := c.id, name := c.name, result := toolErrorPayload m } ∧
      jGet (toolErrorPayload m) (toL "error") = some (.str (toL "Failed to execute tool")) ∧
      jGet (toolErrorPayload m) (toL "message") = some (.str m)) := by
  have hcrash : ∀ (c : ToolCall) (m : Str) (cs : List ToolCall), c.arguments = .error m →
      (runBatch ctx uid db meta false (c :: cs)).crash = some unboundLocalMsg ∧
      (runBatch ctx uid db meta false (c :: cs)).results = [] := by
    intro c m cs hc
    constructor <;> simp [runBatch, hc]
  refine ⟨hcrash, ?_, runBatch_bound_length ctx uid calls db meta,
    runBatch_bound_no_crash ctx uid calls db meta,
    fun k => runBatch_bound_get? ctx uid calls db meta k,
    fun _ _ => ⟨rfl, rfl, rfl⟩⟩
  intro cfg oracle fuel cur s c m cs hcur hc hb hdb hmeta
  have hrb : (runBatch ctx uid s.db s.meta s.bound cur.toolCalls).crash =
      some unboundLocalMsg := by
    rw [hcur, hb, hdb, hmeta]
    exact (hcrash c m cs hc).1
  rw [toolLoop, if_neg (by simp [hcur])]
  simp only [hrb]
  refine ⟨?_, ?_, ?_⟩ <;> trivial

/-- C4 witness: the crash and the bound-case isolation evaluated concretely —
a first-position unparseable-argument call aborts the batch with the
UnboundLocalError and the loop makes no follow-up call, while the same
parse failure after a binding call is converted and its sibling executes. -/
theorem toolArgsUnbound_crash_witness :
    (runBatch wCtx 1 wDbEmpty emptyMeta false [wBadArgsCall, wOkCall]).crash =
      some unboundLocalMsg ∧
    (runBatch wCtx 1 wDbEmpty emptyMeta false [wBadArgsCall, wOkCall]).results = [] ∧
    (toolLoop wCfgOpenai wOracleTools wCtx 1 (0 + 1)
      { content := [], toolCalls := [wBadArgsCall, wOkCall], errTag := none }
      (initLoopSt wDbEmpty [])).crash = some unboundLocalMsg ∧
    (toolLoop wCfgOpenai wOracleTools wCtx 1 (0 + 1)
      { content := [], toolCalls := [wBadArgsCall, wOkCall], errTag := none }
      (initLoopSt wDbEmpty [])).st.llmCalls = (initLoopSt wDbEmpty []).llmCalls ∧
    (runBatch wCtx 1 wDbEmpty emptyMeta true [wBadArgsCall, wOkCall]).results.length = 2 ∧
    (runBatch wCtx 1 wDbEmpty emptyMeta true [wBadArgsCall, wOkCall]).crash = none := by
  have h := toolArgsUnbound_crash wCtx 1 wDbEmpty emptyMeta [wBadArgsCall, wOkCall]
  have h1 := h.1 wBadArgsCall (toL "Expecting value: line 1 column 1 (char 0)")
    [wOkCall] rfl
  have h2 := h.2.1 wCfgOpenai wOracleTools 0
    { content := [], toolCalls := [wBadArgsCall, wOkCall], errTag := none }
    (initLoopSt wDbEmpty []) wBadArgsCall
    (toL "Expecting value: line 1 column 1 (char 0)") [wOkCall] rfl rfl rfl rfl rfl
  exact ⟨h1.1, h1.2, h2.1, h2.2.1, h.2.2.1, h.2.2.2.1⟩

/-- C5: when no usable credential exists — the provider environment key is
absent or blank, and the owner's ephemeral key is absent, expired, or blank —
process_chat_message returns normally with the credential-request reply:
needs_api_key set, no tool calls, fresh metadata, and zero provider
invocations for every oracle (the adapter is never called). -/
theorem processChatMessage_needs_credential (cfg : Cfg) (oracle : Oracle) (ctx : Ctx) (db : DB)
    (uid : Nat) (userMessage : Str) (recents : List Message) (summary : Option Str)
    (includePack : Bool)
    (henv : ∀ k, envKeyFor cfg = some k → pyStrip k = [])
    (heph : ∀ p, ctx.eph.find? (fun e => e.1 == uid) = some p →
      strLt ctx.now p.2.expiresAt = false ∨ pyStrip p.2.key = []) :
    processChatMessage cfg oracle ctx db uid userMessage recents summary includePack =
      { result := .ok needsCredResponse, llmCalls := 0, iters := 0 } ∧
    needsCredResponse.needsApiKey = true ∧
    needsCredResponse.toolCalls = [] ∧
    needsCredResponse.meta = emptyMeta := by
  have hmiss : (match getApiKey cfg ctx.eph ctx.now uid with
      | none => true
      | some k => k.isEmpty) = true := by
    unfold getApiKey
    cases he : envKeyFor cfg with
    | some k =>
      have hk := henv k he
      cases hf : ctx.eph.find? (fun e => e.1 == uid) with
      | none => simp [he, hk, hf]
      | some p =>
        rcases heph p hf with hexp | hblank
        · simp [he, hk, hf, hexp]
        · by_cases hdt : strLt ctx.now p.2.expiresAt = true
          · simp [he, hk, hf, hdt, hblank]
          · simp [he, hk, hf, hdt]
    | none =>
      cases hf : ctx.eph.find? (fun e => e.1 == uid) with
      | none => simp [he, hf]
      | some p =>
        rcases heph p hf with hexp | hblank
        · simp [he, hf, hexp]
        · by_cases hdt : strLt ctx.now p.2.expiresAt = true
          · simp [he, hf, hdt, hblank]
          · simp [he, hf, hdt]
  refine ⟨?_, rfl, rfl, rfl⟩
  unfold processChatMessage
  rw [if_pos hmiss]

/-- C5 witness: a blank environment key and an expired ephemeral key yield
the credential-request reply with zero provider calls, for an oracle that
would otherwise answer with tool calls. -/
theorem processChatMessage_needs_credential_witness :
    processChatMessage wCfgBlank wOracleTools wCtxExpired wDbEmpty 1 (toL "oi") [] none false =
      { result := .ok needsCredResponse, llmCalls := 0, iters := 0 } ∧
    needsCredResponse.needsApiKey = true ∧
    needsCredResponse.toolCalls = [] ∧
    needsCredResponse.meta = emptyMeta :=
  processChatMessage_needs_credential wCfgBlank wOracleTools wCtxExpired wDbEmpty 1
    (toL "oi") [] none false
    (fun k hk => by cases hk; decide)
    (fun p hp => by cases hp; exact Or.inl (by decide))

/-- An amount accepted by the gt=0 validator is strictly positive. -/
theorem vReqNumGt0_pos (args : ArgDict) (k : Str) (a : Rat)
    (h : vReqNumGt0 args k = .ok a) : 0 < a := by
  unfold vReqNumGt0 at h
  split at h
  · simp at h
  · split at h
    · rename_i q hq
      simp only [Except.ok.injEq] at h
      exact h ▸ hq
    · simp at h
  · simp at h

/-- A payload passing create validation carries a strictly positive amount. -/
theorem parseCreateTx_pos (args : ArgDict) (i : CreateTransactionInput)
    (h : parseCreateTx args = .ok i) : 0 < i.amount := by
  unfold parseCreateTx at h
  dsimp only at h
  split at h
  · rename_i a t c d o ha ht hc hd ho
    simp only [Except.ok.injEq] at h
    rw [← h]
    exact vReqNumGt0_pos args (toL "amount") a ha
  · simp at h

/-- The successful create dispatch: validated input, positive amount, one
appended row. -/
theorem executeTool_create_ok (now : DT) (db : DB) (uid : Nat) (args : ArgDict)
    (i : CreateTransactionInput) (hp : parseCreateTx args = .ok i) (hpos : 0 < i.amount)
    (hce : createFieldErrs i = []) :
    executeTool now db uid (toL "create_transaction") args =
      (.ok (txJson (mkCreatedTx now db uid i)),
       { txs := db.txs ++ [mkCreatedTx now db uid i], nextId := db.nextId + 1 }) := by
  rw [executeTool_create_eq]
  simp only [hp]
  unfold toolCreateTransaction
  simp only [hce]
  unfold createUserTransaction
  rw [if_neg (not_le.mpr hpos)]
  rfl

/-- A crash-free loop round whose follow-up answer is empty terminates after
exactly that batch, whatever fuel remains. -/
theorem toolLoop_one_batch (cfg : Cfg) (oracle : Oracle) (ctx : Ctx) (uid : Nat)
    (fuel : Nat) (cur : LLMResponse) (s : LoopSt) (hcur : cur.toolCalls ≠ [])
    (hnc : (runBatch ctx uid s.db s.meta s.bound cur.toolCalls).crash = none)
    (hor : oracle s.callIdx (toolLoopStep cfg ctx uid cur s).msgs true =
      .ok { content := [], toolCalls := [], errTag := none }) :
    toolLoop cfg oracle ctx uid (fuel + 1) cur s =
      { early := false, resp := { content := [], toolCalls := [], errTag := none },
        st := toolLoopStep cfg ctx uid cur s, crash := none } := by
  rw [toolLoop, if_neg (by simpa [List.isEmpty_iff] using hcur)]
  simp only [hnc]
  simp only [hor, Option.isSome_none, Bool.false_eq_true, if_false]
  cases fuel with
  | zero => rfl
  | succ n =>
    rw [toolLoop]
    exact rfl

/-- C7: when the final response's content is empty and at least one tool
executed successfully, the reply content is synthesized by the fixed
priority update > delete > create > generic over the names of the successful
tools; in the end-to-end scenario where the model first requests one
create_transaction with arguments that pass both the chat-schema validation
and the TransactionCreate length constraints and then answers with empty
content, the final content is exactly the create confirmation sentence and
the metadata records the creation. -/
theorem emptyContent_create_confirmation (cfg : Cfg) (oracle : Oracle) (ctx : Ctx) (db : DB)
    (uid : Nat) (userMessage : Str) (recents : List Message) (summary : Option Str)
    (includePack : Bool) (cid : Str) (args : ArgDict) (cinp : CreateTransactionInput)
    (k : Str) (hk : getApiKey cfg ctx.eph ctx.now uid = some k) (hk2 : k ≠ [])
    (h0 : ∀ m b, oracle 0 m b =
      .ok { content := [],
            toolCalls := [{ id := cid, name := toL "create_transaction",
                            arguments := .ok args }],
            errTag := none })
    (h1 : ∀ i m b, i ≠ 0 → oracle i m b =
      .ok { content := [], toolCalls := [], errTag := none })
    (hargs : parseCreateTx args = .ok cinp) (hce : createFieldErrs cinp = []) :
    (∃ r, (processChatMessage cfg oracle ctx db uid userMessage recents summary
        includePack).result = .ok r ∧
      r.content = toL "Transação registrada com sucesso!" ∧
      r.meta.didCreate = true) ∧
    (∀ names : List Str, names.contains (toL "update_transaction") = true →
      synthContent names = toL "Transação atualizada com sucesso!") ∧
    (∀ names : List Str, names.contains (toL "update_transaction") = false →
      names.contains (toL "delete_transaction") = true →
      synthContent names = toL "Transação excluída com sucesso!") ∧
    (∀ names : List Str, names.contains (toL "update_transaction") = false →
      names.contains (toL "delete_transaction") = false →
      names.contains (toL "create_transaction") = true →
      synthContent names = toL "Transação registrada com sucesso!") ∧
    (∀ names : List Str, names.contains (toL "update_transaction") = false →
      names.contains (toL "delete_transaction") = false →
      names.contains (toL "create_transaction") = false →
      synthContent names = toL "Operação realizada com sucesso!") := by
  refine ⟨?_, ?_, ?_, ?_, ?_⟩
  · have hmiss : (match getApiKey cfg ctx.eph ctx.now uid with
        | none => true
        | some kk => kk.isEmpty) = false := by
      rw [hk]
      simpa [List.isEmpty_iff] using hk2
    obtain ⟨f, hf⟩ : ∃ f, maxToolIterations cfg = f + 1 := by
      unfold maxToolIterations
      split
      · exact ⟨1, rfl⟩
      · exact ⟨0, rfl⟩
    have hexec := executeTool_create_ok ctx.now db uid args cinp hargs
      (parseCreateTx_pos args cinp hargs) hce
    have hloop := toolLoop_one_batch cfg oracle ctx uid f
      { content := [],
        toolCalls := [{ id := cid, name := toL "create_transaction", arguments := .ok args }],
        errTag := none }
      (initLoopSt db (builtMessages ctx db uid userMessage recents summary includePack))
      (List.cons_ne_nil _ _) rfl
      (h1 _ _ _ (by exact Nat.one_ne_zero))
    unfold processChatMessage
    rw [hmiss]
    rw [if_neg Bool.false_ne_true]
    simp only [h0, Option.isSome_none, Bool.false_eq_true, if_false, hf, hloop]
    refine ⟨_, rfl, ?_, ?_⟩
    · show (finalizeResp _ _ _).content = _
      simp only [toolLoopStep, initLoopSt, runBatch, hexec, mkToolResult]
      exact rfl
    · show (finalizeResp _ _ _).meta.didCreate = true
      simp only [toolLoopStep, initLoopSt, runBatch, hexec, mkToolResult]
      exact rfl
  · intro names hupd
    unfold synthContent
    rw [if_pos hupd]
  · intro names hupd hdel
    unfold synthContent
    rw [if_neg (by rw [hupd]; exact Bool.false_ne_true), if_pos hdel]
  · intro names hupd hdel hcr
    unfold synthContent
    rw [if_neg (by rw [hupd]; exact Bool.false_ne_true),
      if_neg (by rw [hdel]; exact Bool.false_ne_true), if_pos hcr]
  · intro names hupd hdel hcr
    unfold synthContent
    rw [if_neg (by rw [hupd]; exact Bool.false_ne_true),
      if_neg (by rw [hdel]; exact Bool.false_ne_true),
      if_neg (by rw [hcr]; exact Bool.false_ne_true)]

/-- C7 witness: the scenario evaluated concretely — a create request followed
by an empty follow-up yields exactly the create confirmation sentence. -/
theorem emptyContent_create_confirmation_witness :
    ∃ r, (processChatMessage wCfgOpenai wOracleCreate wCtx wDbEmpty 1 (toL "gastei 10") []
        none false).result = .ok r ∧
      r.content = toL "Transação registrada com sucesso!" ∧
      r.meta.didCreate = true :=
  (emptyContent_create_confirmation wCfgOpenai wOracleCreate wCtx wDbEmpty 1 (toL "gastei 10")
    [] none false (toL "c1") wCreateArgs wCreateInp (toL "sk-test") rfl (by decide)
    (fun m b => rfl) (fun i m b hi => by unfold wOracleCreate; rw [if_neg hi]) rfl rfl).1

/-- C9 (amended): the tool-attachment decision is the pure function of
(message text, context-pack flag, prior assistant text) given by: mode always
attaches for any text; mode heuristic attaches iff an action keyword matches
OR the most recent prior assistant message carries a clarification marker;
and — unlike the claim — the clarification force-attach override also fires
in mode never and in unknown modes, so never-mode attaches exactly on the
marker and an unknown mode decides by the context-pack flag OR the marker. -/
theorem attachToolsDecision_eq_spec (mode userMessage : Str) (includePack : Bool)
    (recents : List Message) :
    attachToolsDecision mode userMessage includePack recents =
      attachToolsSpec mode userMessage includePack recents := by
  unfold attachToolsDecision attachToolsSpec shouldAttachTools
  by_cases h1 : mode = toL "always"
  · simp [h1]
  · by_cases h2 : mode = toL "never"
    · cases hf : shouldForceToolsFromContext recents <;> simp [h1, h2, hf]
    · by_cases h3 : mode = toL "heuristic"
      · cases hf : shouldForceToolsFromContext recents <;>
          cases hkw : actionKeywords.any (fun kwd => strContains (pyLower userMessage) kwd) <;>
          cases includePack <;> simp [h1, h2, h3, hf, hkw] <;> decide
      · cases hf : shouldForceToolsFromContext recents <;>
          cases includePack <;> simp [h1, h2, h3, hf]

/-- C9 counterexample: with AI_TOOLS_MODE = never, a prior assistant turn
asking for the category forces tools on for the bare answer "50" — the
combined decision attaches tools, contradicting "mode never attaches none". -/
theorem attachToolsDecision_never_attaches :
    attachToolsDecision (toL "never") (toL "50") false
      [{ role := toL "assistant", content := toL "qual foi a categoria?", toolCalls := [] }] =
      true := by
  decide

end ZeFinance
